import Mathlib

/-!
Verification of the h26x-extractor H.264 Annex B parser.

The definitions below are a shallow embedding of the Python sources
`h26x_extractor/h26x_parser.py` and `h26x_extractor/nalutypes.py`:

* bytes are `Nat` values (each `< 256` in real streams), buffers are `List Nat`;
* a `BitReader` models a `bitstring.BitStream` together with its bit cursor
  (`self.s` and `self.s.pos` in the Python code);
* fallible reads return `Option` (a failed read raises `ReadError` in Python);
* the parser pipeline returns `Except String` (a fatal error aborts `parse()`).
-/

namespace H26x

/-- A bitstream with a cursor, modelling `bitstring.BitStream` plus `pos`. -/
structure BitReader where
  bits : List Bool
  pos : Nat
  deriving Repr, DecidableEq

/-- MSB-first interpretation of a bit list as an unsigned integer. -/
def bitsToNat (l : List Bool) : Nat :=
  l.foldl (fun acc b => 2 * acc + (if b then 1 else 0)) 0

/-- A byte as 8 bits, MSB first (`Nat.testBit 7` down to `Nat.testBit 0`). -/
def byteToBits (b : Nat) : List Bool :=
  [b.testBit 7, b.testBit 6, b.testBit 5, b.testBit 4,
   b.testBit 3, b.testBit 2, b.testBit 1, b.testBit 0]

/-- A byte buffer as a bitstream, MSB first within each byte. -/
def bytesToBits (l : List Nat) : List Bool :=
  l.flatMap byteToBits

/-- `read_bits(n)` / `read("uint:n")`: MSB-first unsigned read of `n` bits;
fails (`none`) when fewer than `n` bits remain, like a `ReadError`. -/
def readBits (r : BitReader) (n : Nat) : Option (Nat × BitReader) :=
  if r.pos + n ≤ r.bits.length then
    some (bitsToNat ((r.bits.drop r.pos).take n), ⟨r.bits, r.pos + n⟩)
  else
    none

/-- Number of leading `false` bits before the first `true`; `none` when the
list holds no `true` bit at all. -/
def leadingZeros : List Bool → Option Nat
  | [] => none
  | true :: _ => some 0
  | false :: rest => (leadingZeros rest).map (· + 1)

/-- Modelled from the spec: `read_ue()` of the external `bitstring` library
(not part of this repository). Count the leading zero bits `k` up to the
first `1` bit, skip that `1`, read `k` suffix bits, and return
`2 ^ k - 1 + suffix`. -/
def read_ue (r : BitReader) : Option (Nat × BitReader) := do
  let k ← leadingZeros (r.bits.drop r.pos)
  let (suffix, r') ← readBits ⟨r.bits, r.pos + k + 1⟩ k
  some (2 ^ k - 1 + suffix, r')

/-- Modelled from the spec: `read_se()` of the external `bitstring` library.
The unsigned code `k` maps to `0, 1, -1, 2, -2, 3, ...`. -/
def read_se (r : BitReader) : Option (Int × BitReader) := do
  let (k, r') ← read_ue r
  let v : Int := if k % 2 = 1 then ((k : Int) + 1) / 2 else -((k : Int) / 2)
  some (v, r')

/-- RBSP de-emulation, from `H26xParser._decode_nalu`: one left-to-right pass
over the payload bytes; a `00 00 03` triplet emits `00 00` and drops the
`03`, everything else is copied unchanged. -/
def deEmulate : List Nat → List Nat
  | 0 :: 0 :: 3 :: rest => 0 :: 0 :: deEmulate rest
  | b :: rest => b :: deEmulate rest
  | [] => []

/-- Whether a byte sequence contains the triplet `00 00 03` anywhere. -/
def hasEmuTriplet : List Nat → Bool
  | 0 :: 0 :: 3 :: _ => true
  | _ :: rest => hasEmuTriplet rest
  | [] => false

theorem deEmulate_of_hasEmuTriplet_eq_false :
    ∀ l : List Nat, hasEmuTriplet l = false → deEmulate l = l := by
  intro l h
  induction l using deEmulate.induct with
  | case1 rest ih =>
    simp [hasEmuTriplet] at h
  | case2 b rest hne ih =>
    rw [hasEmuTriplet] at h
    · rw [deEmulate]
      · rw [ih h]
      · intro rest' hEq
        exact hne rest' hEq
    · intro rest' hEq
      exact hne rest' hEq
  | case3 => rfl

/-! ### NALU locator, from `H26xParser._get_nalu_positions` -/

/-- Whether the byte pattern `pat` occurs in `buf` at byte offset `i`. -/
def matchesAt (buf pat : List Nat) (i : Nat) : Bool :=
  decide ((buf.drop i).take pat.length = pat)

/-- `BitStream.findall(pattern, bytealigned=True)`: the bit positions
(multiples of 8) of every byte-aligned occurrence of `pat` in `buf`,
in increasing order, overlapping occurrences included. -/
def findPattern (pat buf : List Nat) : List Nat :=
  ((List.range buf.length).filter (matchesAt buf pat)).map (8 * ·)

/-- `buf` contains the byte sequence `pat` somewhere. -/
def containsSeq (buf pat : List Nat) : Prop :=
  ∃ i, (buf.drop i).take pat.length = pat

/-- Insert into a sorted list, preserving order. -/
def insertSorted (x : Nat) : List Nat → List Nat
  | [] => [x]
  | y :: ys => if x ≤ y then x :: y :: ys else y :: insertSorted x ys

/-- Insertion sort over `Nat` lists, modelling the Python `sorted()` call. -/
def sortNat (l : List Nat) : List Nat :=
  l.foldr insertSorted []

/-- The error printed by `_get_nalu_positions` before `sys.exit(1)`;
`sys.exit` raises `SystemExit`, which propagates out of `parse()`. -/
def noNaluMsg : String := "No NALUs found in stream"

/-- `H26xParser._get_nalu_positions`: all bit positions of the 4-byte start
code `00 00 00 01`, merged with extraneous 3-byte `00 00 01` start codes via
`max(s - 8, 0)` (the clamp guards against an index before the buffer) and
`s + 8`, sorted, with the end-of-stream bit length appended. -/
def getNaluPositions (buf : List Nat) : Except String (List Nat) :=
  let longPos := findPattern [0, 0, 0, 1] buf
  let shortPos := findPattern [0, 0, 1] buf
  if longPos = [] ∧ shortPos = [] then
    .error noNaluMsg
  else
    let endOfStream := 8 * buf.length
    if longPos = [] then
      .ok (shortPos ++ [endOfStream])
    else
      let extra := ((shortPos.map (fun s => max (s - 8) 0)).filter
        (fun p => p ∉ longPos)).dedup
      let positions :=
        if extra ≠ [] then
          sortNat (longPos ++ extra.map (· + 8))
        else
          longPos
      .ok (positions ++ [endOfStream])

/-! ### Per-NALU decode, from `H26xParser._decode_nalu` -/

/-- `H26xParser._decode_nalu`: skip the 4-byte start code when the segment
begins with `00 00 00 01`, otherwise skip a 3-byte start code (failing when
fewer than 3 bytes exist); split off the 1-byte NAL header (bit 0 forbidden,
bits 1-2 `nal_ref_idc`, bits 3-7 `nal_unit_type`); de-emulate the rest.
Returns `(nal_unit_type, rbsp_payload)`. -/
def decodeNalu (seg : List Nat) : Option (Nat × List Nat) :=
  let afterStart : Option (List Nat) :=
    if seg.take 4 = [0, 0, 0, 1] then some (seg.drop 4)
    else if 3 ≤ seg.length then some (seg.drop 3)
    else none
  match afterStart with
  | none => none
  | some rest =>
    match rest with
    | [] => none
    | header :: payload => some (header % 32, deEmulate payload)

/-! ### Exp-Golomb list readers (counted loops in the Python decoders) -/

/-- Read `n` unsigned Exp-Golomb values, collecting them in order. -/
def readUeList : Nat → BitReader → Option (List Nat × BitReader)
  | 0, r => some ([], r)
  | n + 1, r => do
    let (v, r) ← read_ue r
    let (vs, r) ← readUeList n r
    some (v :: vs, r)

/-- Read `n` signed Exp-Golomb values, collecting them in order. -/
def readSeList : Nat → BitReader → Option (List Int × BitReader)
  | 0, r => some ([], r)
  | n + 1, r => do
    let (v, r) ← read_se r
    let (vs, r) ← readSeList n r
    some (v :: vs, r)

/-- Read `n` fixed-width (`w`-bit) unsigned values, collecting them in order. -/
def readUintList : Nat → Nat → BitReader → Option (List Nat × BitReader)
  | 0, _, r => some ([], r)
  | n + 1, w, r => do
    let (v, r) ← readBits r w
    let (vs, r) ← readUintList n w r
    some (v :: vs, r)

/-! ### Scaling lists, from `nalutypes.parse_scaling_list` -/

/-- One iteration step state of `parse_scaling_list`: index `i`, fuel
(remaining iterations), `last_scale`, `next_scale`, accumulated entries. -/
def scalingListGo (r : BitReader) (fuel i lastScale nextScale : Nat)
    (acc : List Nat) : Option (List Nat × Nat × BitReader) :=
  match fuel with
  | 0 => some (acc.reverse, 0, r)
  | fuel + 1 => do
    let (nextScale', r') ←
      if nextScale ≠ 0 then do
        let (delta, r') ← read_se r
        some (((((lastScale : Int) + delta + 256) % 256).toNat), r')
      else
        some (nextScale, r)
    if i = 0 ∧ nextScale' = 0 then
      some (acc.reverse, 1, r')
    else if nextScale' = 0 then
      scalingListGo r' fuel (i + 1) lastScale nextScale' (lastScale :: acc)
    else
      scalingListGo r' fuel (i + 1) nextScale' nextScale' (nextScale' :: acc)

/-- `parse_scaling_list(bitreader, sizeOfScalingList)`: returns
`(scaling_list, use_default_scaling_matrix_flag)` and the advanced reader. -/
def parse_scaling_list (r : BitReader) (sizeOfScalingList : Nat) :
    Option (List Nat × Nat × BitReader) :=
  scalingListGo r sizeOfScalingList 0 8 8 []

/-! ### SPS decoder, from `nalutypes.SPS` -/

/-- The decoded fields of a Sequence Parameter Set. Fields that the Python
constructor assigns only on some paths are `Option`s (`none` models an
attribute that was never set). VUI/HRD fields are read for cursor
advancement but, being unused by any later decoder, are not recorded. -/
structure SPSRec where
  profile_idc : Nat
  constraint_set0_flag : Nat
  constraint_set1_flag : Nat
  constraint_set2_flag : Nat
  constraint_set3_flag : Nat
  constraint_set4_flag : Nat
  constraint_set5_flag : Nat
  reserved_zero_2bits : Nat
  level_idc : Nat
  seq_parameter_set_id : Nat
  chroma_format_idc : Option Nat := none
  separate_colour_plane_flag : Option Nat := none
  bit_depth_luma_minus8 : Option Nat := none
  bit_depth_chroma_minus8 : Option Nat := none
  qpprime_y_zero_transform_bypass_flag : Option Nat := none
  seq_scaling_matrix_present_flag : Option Nat := none
  scaling_lists : List (Option (List Nat)) := []
  log2_max_frame_num_minus4 : Nat
  pic_order_cnt_type : Nat
  log2_max_pic_order_cnt_lsb_minus4 : Option Nat := none
  delta_pic_order_always_zero_flag : Option Nat := none
  offset_for_non_ref_pic : Option Int := none
  offset_for_top_to_bottom_filed : Option Int := none
  num_ref_frames_in_pic_order_cnt_cycle : Option Nat := none
  offset_for_ref_frame : List Int := []
  num_ref_frames : Nat
  gaps_in_frame_num_value_allowed_flag : Nat
  pic_width_in_mbs_minus_1 : Nat
  pic_height_in_map_units_minus_1 : Nat
  frame_mbs_only_flag : Nat
  mb_adaptive_frame_field_flag : Option Nat := none
  direct_8x8_inference_flag : Nat
  frame_cropping_flag : Nat
  frame_crop_left_offset : Option Nat := none
  frame_crop_right_offset : Option Nat := none
  frame_crop_top_offset : Option Nat := none
  frame_crop_bottom_offset : Option Nat := none
  vui_parameters_present_flag : Nat
  deriving Repr

/-- The `(bit_rate_value_minus1, cpb_size_value_minus1, cbr_flag)` loop of
`SPS.parse_hrd_parameters`, run `cpb_cnt_minus1 + 1` times. -/
def hrdEntries : Nat → BitReader → Option BitReader
  | 0, r => some r
  | n + 1, r => do
    let (_bit_rate_value_minus1, r) ← read_ue r
    let (_cpb_size_value_minus1, r) ← read_ue r
    let (_cbr_flag, r) ← readBits r 1
    hrdEntries n r

/-- `SPS.parse_hrd_parameters`: reads the HRD block, returning only the
advanced reader (the recorded fields are unused downstream). -/
def parseHrdParameters (r : BitReader) : Option BitReader := do
  let (cpb_cnt_minus1, r) ← read_ue r
  let (_bit_rate_scale, r) ← readBits r 4
  let (_cpb_size_scale, r) ← readBits r 4
  let r ← hrdEntries (cpb_cnt_minus1 + 1) r
  let (_initial_cpb_removal_delay_length_minus1, r) ← readBits r 5
  let (_cpb_removal_delay_length_minus1, r) ← readBits r 5
  let (_dpb_output_delay_length_minus1, r) ← readBits r 5
  let (_time_offset_length, r) ← readBits r 5
  some r

/-- Aspect-ratio group of `SPS.parse_vui_parameters` (with extended SAR). -/
def vuiAspectRatio (r : BitReader) : Option BitReader := do
  let (aspect_ratio_info_present_flag, r) ← readBits r 1
  if aspect_ratio_info_present_flag = 1 then do
    let (aspect_ratio_idc, r) ← readBits r 8
    if aspect_ratio_idc = 255 then do
      let (_sar_width, r) ← readBits r 16
      let (_sar_height, r) ← readBits r 16
      some r
    else some r
  else some r

/-- Overscan group of `SPS.parse_vui_parameters`. -/
def vuiOverscan (r : BitReader) : Option BitReader := do
  let (overscan_info_present_flag, r) ← readBits r 1
  if overscan_info_present_flag = 1 then do
    let (_overscan_appropriate_flag, r) ← readBits r 1
    some r
  else some r

/-- Video-signal-type group of `SPS.parse_vui_parameters` (with the colour
description triple). -/
def vuiVideoSignal (r : BitReader) : Option BitReader := do
  let (video_signal_type_present_flag, r) ← readBits r 1
  if video_signal_type_present_flag = 1 then do
    let (_video_format, r) ← readBits r 3
    let (_video_full_range_flag, r) ← readBits r 1
    let (colour_description_present_flag, r) ← readBits r 1
    if colour_description_present_flag = 1 then do
      let (_colour_primaries, r) ← readBits r 8
      let (_transfer_characteristics, r) ← readBits r 8
      let (_matrix_coefficients, r) ← readBits r 8
      some r
    else some r
  else some r

/-- Chroma-sample-location group of `SPS.parse_vui_parameters`. -/
def vuiChromaLoc (r : BitReader) : Option BitReader := do
  let (chroma_loc_info_present_flag, r) ← readBits r 1
  if chroma_loc_info_present_flag = 1 then do
    let (_chroma_sample_loc_type_top_field, r) ← read_ue r
    let (_chroma_sample_loc_type_bottom_field, r) ← read_ue r
    some r
  else some r

/-- Timing-info group of `SPS.parse_vui_parameters`. -/
def vuiTiming (r : BitReader) : Option BitReader := do
  let (timing_info_present_flag, r) ← readBits r 1
  if timing_info_present_flag = 1 then do
    let (_num_units_in_tick, r) ← readBits r 32
    let (_time_scale, r) ← readBits r 32
    let (_fixed_frame_rate_flag, r) ← readBits r 1
    some r
  else some r

/-- The two optional HRD blocks plus `low_delay_hrd_flag` of
`SPS.parse_vui_parameters`. -/
def vuiHrdBlocks (r : BitReader) : Option BitReader := do
  let (nal_hrd_parameters_present_flag, r) ← readBits r 1
  let r ←
    if nal_hrd_parameters_present_flag = 1 then parseHrdParameters r
    else some r
  let (vcl_hrd_parameters_present_flag, r) ← readBits r 1
  let r ←
    if vcl_hrd_parameters_present_flag = 1 then parseHrdParameters r
    else some r
  if nal_hrd_parameters_present_flag = 1 ∨ vcl_hrd_parameters_present_flag = 1 then do
    let (_low_delay_hrd_flag, r) ← readBits r 1
    some r
  else some r

/-- The `pic_struct_present_flag` bit and the bitstream-restriction group of
`SPS.parse_vui_parameters`. -/
def vuiBitstreamRestriction (r : BitReader) : Option BitReader := do
  let (_pic_struct_present_flag, r) ← readBits r 1
  let (bitstream_restriction_flag, r) ← readBits r 1
  if bitstream_restriction_flag = 1 then do
    let (_motion_vectors_over_pic_boundaries_flag, r) ← readBits r 1
    let (_max_bytes_per_pic_denom, r) ← read_ue r
    let (_max_bits_per_mb_denom, r) ← read_ue r
    let (_log2_max_mv_length_horizontal, r) ← read_ue r
    let (_log2_max_mv_length_vertical, r) ← read_ue r
    let (_max_num_reorder_frames, r) ← read_ue r
    let (_max_dec_frame_buffering, r) ← read_ue r
    some r
  else some r

/-- `SPS.parse_vui_parameters`: reads the VUI block, returning only the
advanced reader (the recorded fields are unused downstream). -/
def parseVuiParameters (r : BitReader) : Option BitReader := do
  let r ← vuiAspectRatio r
  let r ← vuiOverscan r
  let r ← vuiVideoSignal r
  let r ← vuiChromaLoc r
  let r ← vuiTiming r
  let r ← vuiHrdBlocks r
  vuiBitstreamRestriction r

/-- The per-list loop of `SPS.parse_scaling_matrix`: each of the `n`
remaining lists (list index `i`) is gated by a present flag; list `i` has 16
entries when `i < 6`, else 64. Absent lists are recorded as `none`. -/
def scalingMatrixGo : Nat → Nat → BitReader →
    Option (List (Option (List Nat)) × BitReader)
  | 0, _, r => some ([], r)
  | n + 1, i, r => do
    let (present, r) ← readBits r 1
    if present = 1 then do
      let (l, _useDefault, r) ← parse_scaling_list r (if i < 6 then 16 else 64)
      let (ls, r') ← scalingMatrixGo n (i + 1) r
      some (some l :: ls, r')
    else do
      let (ls, r') ← scalingMatrixGo n (i + 1) r
      some (none :: ls, r')

/-- `SPS.parse_scaling_matrix`: 8 lists when `chroma_format_idc == 3`, else 6. -/
def parseScalingMatrix (chromaFormatIdc : Nat) (r : BitReader) :
    Option (List (Option (List Nat)) × BitReader) :=
  scalingMatrixGo (if chromaFormatIdc = 3 then 8 else 6) 0 r

/-- The `profile_idc` allow-list gating the chroma/bit-depth block. -/
def highProfileIdcs : List Nat :=
  [100, 110, 122, 244, 44, 83, 86, 118, 128, 138, 139, 134, 135]

/-- The chroma-format / bit-depth / scaling-matrix block that
`SPS.__init__` reads only for allow-listed `profile_idc` values. -/
structure SPSHiFields where
  chroma_format_idc : Option Nat := none
  separate_colour_plane_flag : Option Nat := none
  bit_depth_luma_minus8 : Option Nat := none
  bit_depth_chroma_minus8 : Option Nat := none
  qpprime_y_zero_transform_bypass_flag : Option Nat := none
  seq_scaling_matrix_present_flag : Option Nat := none
  scaling_lists : List (Option (List Nat)) := []
  deriving Repr

/-- The high-profile block of `SPS.__init__` (only entered when
`profile_idc` is on the allow-list). -/
def parseSPSHi (r : BitReader) : Option (SPSHiFields × BitReader) := do
  let (chroma_format_idc, r) ← read_ue r
  let (sep, r) ←
    if chroma_format_idc = 3 then do
      let (v, r) ← readBits r 1
      some (some v, r)
    else some ((none : Option Nat), r)
  let (bit_depth_luma_minus8, r) ← read_ue r
  let (bit_depth_chroma_minus8, r) ← read_ue r
  let (qpprime, r) ← readBits r 1
  let (seq_scaling, r) ← readBits r 1
  let (lists, r) ←
    if seq_scaling ≠ 0 then parseScalingMatrix chroma_format_idc r
    else some (([] : List (Option (List Nat))), r)
  some ({ chroma_format_idc := some chroma_format_idc
          separate_colour_plane_flag := sep
          bit_depth_luma_minus8 := some bit_depth_luma_minus8
          bit_depth_chroma_minus8 := some bit_depth_chroma_minus8
          qpprime_y_zero_transform_bypass_flag := some qpprime
          seq_scaling_matrix_present_flag := some seq_scaling
          scaling_lists := lists }, r)

/-- The `pic_order_cnt_type`-dependent block of `SPS.__init__`. -/
structure SPSPocFields where
  log2_max_pic_order_cnt_lsb_minus4 : Option Nat := none
  delta_pic_order_always_zero_flag : Option Nat := none
  offset_for_non_ref_pic : Option Int := none
  offset_for_top_to_bottom_filed : Option Int := none
  num_ref_frames_in_pic_order_cnt_cycle : Option Nat := none
  offset_for_ref_frame : List Int := []
  deriving Repr

/-- The `pic_order_cnt_type` branch of `SPS.__init__`: type 0 reads one ue,
type 1 reads a flag, two se values and a counted se list, type 2 nothing. -/
def parseSPSPoc (picOrderCntType : Nat) (r : BitReader) :
    Option (SPSPocFields × BitReader) :=
  if picOrderCntType = 0 then do
    let (v, r) ← read_ue r
    some ({ log2_max_pic_order_cnt_lsb_minus4 := some v }, r)
  else if picOrderCntType = 1 then do
    let (dz, r) ← readBits r 1
    let (onr, r) ← read_se r
    let (ottb, r) ← read_se r
    let (cnt, r) ← read_ue r
    let (offs, r) ← readSeList cnt r
    some ({ delta_pic_order_always_zero_flag := some dz
            offset_for_non_ref_pic := some onr
            offset_for_top_to_bottom_filed := some ottb
            num_ref_frames_in_pic_order_cnt_cycle := some cnt
            offset_for_ref_frame := offs }, r)
  else
    some ({}, r)

/-- The frame-cropping offsets of `SPS.__init__`. -/
structure SPSCropFields where
  frame_crop_left_offset : Option Nat := none
  frame_crop_right_offset : Option Nat := none
  frame_crop_top_offset : Option Nat := none
  frame_crop_bottom_offset : Option Nat := none
  deriving Repr

/-- The `frame_cropping_flag`-gated block of `SPS.__init__`. -/
def parseSPSCrop (frameCroppingFlag : Nat) (r : BitReader) :
    Option (SPSCropFields × BitReader) :=
  if frameCroppingFlag ≠ 0 then do
    let (l, r) ← read_ue r
    let (ri, r) ← read_ue r
    let (t, r) ← read_ue r
    let (b, r) ← read_ue r
    some ({ frame_crop_left_offset := some l
            frame_crop_right_offset := some ri
            frame_crop_top_offset := some t
            frame_crop_bottom_offset := some b }, r)
  else
    some ({}, r)

/-- The fixed-width prologue of `SPS.__init__`: profile, the six constraint
flags, the reserved bits, the level, and `seq_parameter_set_id`. -/
structure SPSHead where
  profile_idc : Nat
  constraint_set0_flag : Nat
  constraint_set1_flag : Nat
  constraint_set2_flag : Nat
  constraint_set3_flag : Nat
  constraint_set4_flag : Nat
  constraint_set5_flag : Nat
  reserved_zero_2bits : Nat
  level_idc : Nat
  seq_parameter_set_id : Nat
  deriving Repr

/-- Reads the `SPSHead` fields, in the order of `SPS.__init__`. -/
def parseSPSHead (r0 : BitReader) : Option (SPSHead × BitReader) := do
  let (profile_idc, r) ← readBits r0 8
  let (c0, r) ← readBits r 1
  let (c1, r) ← readBits r 1
  let (c2, r) ← readBits r 1
  let (c3, r) ← readBits r 1
  let (c4, r) ← readBits r 1
  let (c5, r) ← readBits r 1
  let (reserved_zero_2bits, r) ← readBits r 2
  let (level_idc, r) ← readBits r 8
  let (seq_parameter_set_id, r) ← read_ue r
  some ({ profile_idc := profile_idc
          constraint_set0_flag := c0
          constraint_set1_flag := c1
          constraint_set2_flag := c2
          constraint_set3_flag := c3
          constraint_set4_flag := c4
          constraint_set5_flag := c5
          reserved_zero_2bits := reserved_zero_2bits
          level_idc := level_idc
          seq_parameter_set_id := seq_parameter_set_id }, r)

/-- The frame-number / picture-order-count / reference-frame group of
`SPS.__init__`, from `log2_max_frame_num_minus4` through
`pic_height_in_map_units_minus_1`. -/
structure SPSMid where
  log2_max_frame_num_minus4 : Nat
  pic_order_cnt_type : Nat
  poc : SPSPocFields
  num_ref_frames : Nat
  gaps_in_frame_num_value_allowed_flag : Nat
  pic_width_in_mbs_minus_1 : Nat
  pic_height_in_map_units_minus_1 : Nat
  deriving Repr

/-- Reads the `SPSMid` fields, in the order of `SPS.__init__`. -/
def parseSPSMid (r : BitReader) : Option (SPSMid × BitReader) := do
  let (log2_max_frame_num_minus4, r) ← read_ue r
  let (pic_order_cnt_type, r) ← read_ue r
  let (poc, r) ← parseSPSPoc pic_order_cnt_type r
  let (num_ref_frames, r) ← read_ue r
  let (gaps, r) ← readBits r 1
  let (pic_width_in_mbs_minus_1, r) ← read_ue r
  let (pic_height_in_map_units_minus_1, r) ← read_ue r
  some ({ log2_max_frame_num_minus4 := log2_max_frame_num_minus4
          pic_order_cnt_type := pic_order_cnt_type
          poc := poc
          num_ref_frames := num_ref_frames
          gaps_in_frame_num_value_allowed_flag := gaps
          pic_width_in_mbs_minus_1 := pic_width_in_mbs_minus_1
          pic_height_in_map_units_minus_1 := pic_height_in_map_units_minus_1 }, r)

/-- The epilogue of `SPS.__init__`: frame/field flags, 8x8 inference,
cropping, and the VUI presence flag (with the VUI block itself read for
cursor advancement). -/
structure SPSEnd where
  frame_mbs_only_flag : Nat
  mb_adaptive_frame_field_flag : Option Nat := none
  direct_8x8_inference_flag : Nat
  frame_cropping_flag : Nat
  crop : SPSCropFields
  vui_parameters_present_flag : Nat
  deriving Repr

/-- Reads the `SPSEnd` fields, in the order of `SPS.__init__`. -/
def parseSPSEnd (r : BitReader) : Option (SPSEnd × BitReader) := do
  let (frame_mbs_only_flag, r) ← readBits r 1
  let (mbaff, r) ←
    if frame_mbs_only_flag = 0 then do
      let (v, r) ← readBits r 1
      some (some v, r)
    else some ((none : Option Nat), r)
  let (direct_8x8_inference_flag, r) ← readBits r 1
  let (frame_cropping_flag, r) ← readBits r 1
  let (crop, r) ← parseSPSCrop frame_cropping_flag r
  let (vui_parameters_present_flag, r) ← readBits r 1
  let r ←
    if vui_parameters_present_flag ≠ 0 then parseVuiParameters r
    else some r
  some ({ frame_mbs_only_flag := frame_mbs_only_flag
          mb_adaptive_frame_field_flag := mbaff
          direct_8x8_inference_flag := direct_8x8_inference_flag
          frame_cropping_flag := frame_cropping_flag
          crop := crop
          vui_parameters_present_flag := vui_parameters_present_flag }, r)

/-- Assembles the final `SPSRec` from the four parsed groups, mirroring the
attribute assignments of `SPS.__init__`. -/
def SPS.assemble (head : SPSHead) (hi : SPSHiFields) (mid : SPSMid)
    (tail : SPSEnd) : SPSRec :=
  { profile_idc := head.profile_idc
    constraint_set0_flag := head.constraint_set0_flag
    constraint_set1_flag := head.constraint_set1_flag
    constraint_set2_flag := head.constraint_set2_flag
    constraint_set3_flag := head.constraint_set3_flag
    constraint_set4_flag := head.constraint_set4_flag
    constraint_set5_flag := head.constraint_set5_flag
    reserved_zero_2bits := head.reserved_zero_2bits
    level_idc := head.level_idc
    seq_parameter_set_id := head.seq_parameter_set_id
    chroma_format_idc := hi.chroma_format_idc
    separate_colour_plane_flag := hi.separate_colour_plane_flag
    bit_depth_luma_minus8 := hi.bit_depth_luma_minus8
    bit_depth_chroma_minus8 := hi.bit_depth_chroma_minus8
    qpprime_y_zero_transform_bypass_flag := hi.qpprime_y_zero_transform_bypass_flag
    seq_scaling_matrix_present_flag := hi.seq_scaling_matrix_present_flag
    scaling_lists := hi.scaling_lists
    log2_max_frame_num_minus4 := mid.log2_max_frame_num_minus4
    pic_order_cnt_type := mid.pic_order_cnt_type
    log2_max_pic_order_cnt_lsb_minus4 := mid.poc.log2_max_pic_order_cnt_lsb_minus4
    delta_pic_order_always_zero_flag := mid.poc.delta_pic_order_always_zero_flag
    offset_for_non_ref_pic := mid.poc.offset_for_non_ref_pic
    offset_for_top_to_bottom_filed := mid.poc.offset_for_top_to_bottom_filed
    num_ref_frames_in_pic_order_cnt_cycle := mid.poc.num_ref_frames_in_pic_order_cnt_cycle
    offset_for_ref_frame := mid.poc.offset_for_ref_frame
    num_ref_frames := mid.num_ref_frames
    gaps_in_frame_num_value_allowed_flag := mid.gaps_in_frame_num_value_allowed_flag
    pic_width_in_mbs_minus_1 := mid.pic_width_in_mbs_minus_1
    pic_height_in_map_units_minus_1 := mid.pic_height_in_map_units_minus_1
    frame_mbs_only_flag := tail.frame_mbs_only_flag
    mb_adaptive_frame_field_flag := tail.mb_adaptive_frame_field_flag
    direct_8x8_inference_flag := tail.direct_8x8_inference_flag
    frame_cropping_flag := tail.frame_cropping_flag
    frame_crop_left_offset := tail.crop.frame_crop_left_offset
    frame_crop_right_offset := tail.crop.frame_crop_right_offset
    frame_crop_top_offset := tail.crop.frame_crop_top_offset
    frame_crop_bottom_offset := tail.crop.frame_crop_bottom_offset
    vui_parameters_present_flag := tail.vui_parameters_present_flag }

/-- `nalutypes.SPS.__init__`: the full SPS field parse. -/
def SPS.parse (r0 : BitReader) : Option SPSRec := do
  let (head, r) ← parseSPSHead r0
  let (hi, r) ←
    if head.profile_idc ∈ highProfileIdcs then parseSPSHi r
    else some (({} : SPSHiFields), r)
  let (mid, r) ← parseSPSMid r
  let (tail, _r) ← parseSPSEnd r
  some (SPS.assemble head hi mid tail)

/-! ### AUD decoder, from `nalutypes.AUD` -/

/-- The single decoded field of an Access Unit Delimiter. -/
structure AUDRec where
  primary_pic_type : Nat
  deriving Repr, DecidableEq

/-- `nalutypes.AUD.__init__`: reads `primary_pic_type` (3 bits). -/
def AUD.parse (r0 : BitReader) : Option AUDRec := do
  let (primary_pic_type, _r) ← readBits r0 3
  some { primary_pic_type := primary_pic_type }

/-! ### PPS decoder, from `nalutypes.PPS` -/

/-- The slice-group fields of `PPS.__init__`; list fields that the Python
code leaves unassigned on a branch are `[]`/`none` here. -/
structure PPSGroupFields where
  slice_group_map_type : Nat
  run_length_minus1 : List Nat := []
  top_left : List Nat := []
  bottom_right : List Nat := []
  slice_group_change_direction_flag : Option Nat := none
  slice_group_change_rate_minus1 : Option Nat := none
  pic_size_in_map_units_minus1 : Option Nat := none
  slice_group_id : List Nat := []
  deriving Repr

/-- The `(top_left, bottom_right)` pair loop of the `slice_group_map_type == 2`
branch of `PPS.__init__`, run `num_slice_groups_minus1` times. -/
def readTopLeftBottomRight : Nat → BitReader →
    Option (List Nat × List Nat × BitReader)
  | 0, r => some ([], [], r)
  | n + 1, r => do
    let (tl, r) ← read_ue r
    let (br, r) ← read_ue r
    let (tls, brs, r') ← readTopLeftBottomRight n r
    some (tl :: tls, br :: brs, r')

/-- The `slice_group_map_type` branch of `PPS.__init__` (entered only when
`num_slice_groups_minus1 > 0`): type 0 reads `num_slice_groups_minus1 + 1`
run lengths, type 2 reads `num_slice_groups_minus1` corner pairs, types
3/4/5 read a direction flag and a change rate, type 6 reads a counted list
of map-unit ids of width `ceil(log2(num_slice_groups_minus1 + 1))` bits. -/
def parsePPSGroupBranch (nsgm1 : Nat) (r : BitReader) :
    Option (PPSGroupFields × BitReader) := do
  let (mt, r) ← read_ue r
  if mt = 0 then do
    let (runs, r) ← readUeList (nsgm1 + 1) r
    some ({ slice_group_map_type := mt, run_length_minus1 := runs }, r)
  else if mt = 2 then do
    let (tls, brs, r) ← readTopLeftBottomRight nsgm1 r
    some ({ slice_group_map_type := mt, top_left := tls, bottom_right := brs }, r)
  else if mt = 3 ∨ mt = 4 ∨ mt = 5 then do
    let (dir, r) ← readBits r 1
    let (rate, r) ← read_ue r
    some ({ slice_group_map_type := mt
            slice_group_change_direction_flag := some dir
            slice_group_change_rate_minus1 := some rate }, r)
  else if mt = 6 then do
    let (psz, r) ← read_ue r
    let (ids, r) ← readUintList (psz + 1) (Nat.clog 2 (nsgm1 + 1)) r
    some ({ slice_group_map_type := mt
            pic_size_in_map_units_minus1 := some psz
            slice_group_id := ids }, r)
  else
    some ({ slice_group_map_type := mt }, r)

/-- The reference-index / weighting / quantization / control-flag group of
`PPS.__init__`, after the slice-group block. -/
structure PPSMid where
  num_ref_idx_l0_active_minus1 : Nat
  num_ref_idx_l1_active_minus1 : Nat
  weighted_pred_flag : Nat
  weighted_bipred_idc : Nat
  pic_init_qp_minus26 : Int
  pic_init_qs_minus26 : Int
  chroma_qp_index_offset : Int
  deblocking_filter_control_present_flag : Nat
  constrained_intra_pred_flag : Nat
  redundant_pic_cnt_present_flag : Nat
  deriving Repr

/-- Reads the `PPSMid` fields, in the order of `PPS.__init__`. -/
def parsePPSMid (r : BitReader) : Option (PPSMid × BitReader) := do
  let (l0, r) ← read_ue r
  let (l1, r) ← read_ue r
  let (weighted_pred_flag, r) ← readBits r 1
  let (weighted_bipred_idc, r) ← readBits r 2
  let (pic_init_qp_minus26, r) ← read_se r
  let (pic_init_qs_minus26, r) ← read_se r
  let (chroma_qp_index_offset, r) ← read_se r
  let (deblock, r) ← readBits r 1
  let (constrained, r) ← readBits r 1
  let (redundant, r) ← readBits r 1
  some ({ num_ref_idx_l0_active_minus1 := l0
          num_ref_idx_l1_active_minus1 := l1
          weighted_pred_flag := weighted_pred_flag
          weighted_bipred_idc := weighted_bipred_idc
          pic_init_qp_minus26 := pic_init_qp_minus26
          pic_init_qs_minus26 := pic_init_qs_minus26
          chroma_qp_index_offset := chroma_qp_index_offset
          deblocking_filter_control_present_flag := deblock
          constrained_intra_pred_flag := constrained
          redundant_pic_cnt_present_flag := redundant }, r)

/-- The optional high-profile extension fields of `PPS.__init__`. -/
structure PPSExtFields where
  transform_8x8_mode_flag : Option Nat := none
  pic_scaling_matrix_present_flag : Option Nat := none
  pic_scaling_list_present_flag : List Nat := []
  second_chroma_qp_index_offset : Option Int := none
  deriving Repr

/-- The per-list loop of the PPS scaling-matrix extension: `n` remaining
lists (list index `i`); each present flag is collected, and a present list
is parsed with `parse_scaling_list` and discarded, as in `PPS.__init__`. -/
def ppsScalingFlagsGo : Nat → Nat → BitReader → Option (List Nat × BitReader)
  | 0, _, r => some ([], r)
  | n + 1, i, r => do
    let (present, r) ← readBits r 1
    let r ←
      if present ≠ 0 then do
        let (_l, _flag, r) ← parse_scaling_list r (if i < 6 then 16 else 64)
        some r
      else some r
    let (flags, r') ← ppsScalingFlagsGo n (i + 1) r
    some (present :: flags, r')

/-- The `more_rbsp_data()`-gated extension of `PPS.__init__`: entered only
when `self.s.pos <= len(self.s) - 8` (at least 8 unread bits, compared over
the integers as in Python). -/
def parsePPSExt (r : BitReader) : Option (PPSExtFields × BitReader) :=
  if (r.pos : Int) ≤ (r.bits.length : Int) - 8 then do
    let (transform, r) ← readBits r 1
    let (matrixPresent, r) ← readBits r 1
    let (flags, r) ←
      if matrixPresent ≠ 0 then
        ppsScalingFlagsGo (6 + (if transform = 1 then 2 else 0)) 0 r
      else some (([] : List Nat), r)
    let (secondChroma, r) ← read_se r
    some ({ transform_8x8_mode_flag := some transform
            pic_scaling_matrix_present_flag := some matrixPresent
            pic_scaling_list_present_flag := flags
            second_chroma_qp_index_offset := some secondChroma }, r)
  else
    some ({}, r)

/-- The decoded fields of a Picture Parameter Set. -/
structure PPSRec where
  pic_parameter_set_id : Nat
  seq_parameter_set_id : Nat
  entropy_coding_mode_flag : Nat
  pic_order_present_flag : Nat
  num_slice_groups_minus1 : Nat
  slice_group_map_type : Nat
  run_length_minus1 : List Nat
  top_left : List Nat
  bottom_right : List Nat
  slice_group_change_direction_flag : Option Nat
  slice_group_change_rate_minus1 : Option Nat
  pic_size_in_map_units_minus1 : Option Nat
  slice_group_id : List Nat
  num_ref_idx_l0_active_minus1 : Nat
  num_ref_idx_l1_active_minus1 : Nat
  weighted_pred_flag : Nat
  weighted_bipred_idc : Nat
  pic_init_qp_minus26 : Int
  pic_init_qs_minus26 : Int
  chroma_qp_index_offset : Int
  deblocking_filter_control_present_flag : Nat
  constrained_intra_pred_flag : Nat
  redundant_pic_cnt_present_flag : Nat
  transform_8x8_mode_flag : Option Nat
  pic_scaling_matrix_present_flag : Option Nat
  pic_scaling_list_present_flag : List Nat
  second_chroma_qp_index_offset : Option Int
  deriving Repr

/-- Assembles the final `PPSRec`, mirroring the attribute assignments of
`PPS.__init__`. -/
def PPS.assemble (ppsId seqId entropy order nsgm1 : Nat)
    (grp : PPSGroupFields) (mid : PPSMid) (ext : PPSExtFields) : PPSRec :=
  { pic_parameter_set_id := ppsId
    seq_parameter_set_id := seqId
    entropy_coding_mode_flag := entropy
    pic_order_present_flag := order
    num_slice_groups_minus1 := nsgm1
    slice_group_map_type := grp.slice_group_map_type
    run_length_minus1 := grp.run_length_minus1
    top_left := grp.top_left
    bottom_right := grp.bottom_right
    slice_group_change_direction_flag := grp.slice_group_change_direction_flag
    slice_group_change_rate_minus1 := grp.slice_group_change_rate_minus1
    pic_size_in_map_units_minus1 := grp.pic_size_in_map_units_minus1
    slice_group_id := grp.slice_group_id
    num_ref_idx_l0_active_minus1 := mid.num_ref_idx_l0_active_minus1
    num_ref_idx_l1_active_minus1 := mid.num_ref_idx_l1_active_minus1
    weighted_pred_flag := mid.weighted_pred_flag
    weighted_bipred_idc := mid.weighted_bipred_idc
    pic_init_qp_minus26 := mid.pic_init_qp_minus26
    pic_init_qs_minus26 := mid.pic_init_qs_minus26
    chroma_qp_index_offset := mid.chroma_qp_index_offset
    deblocking_filter_control_present_flag := mid.deblocking_filter_control_present_flag
    constrained_intra_pred_flag := mid.constrained_intra_pred_flag
    redundant_pic_cnt_present_flag := mid.redundant_pic_cnt_present_flag
    transform_8x8_mode_flag := ext.transform_8x8_mode_flag
    pic_scaling_matrix_present_flag := ext.pic_scaling_matrix_present_flag
    pic_scaling_list_present_flag := ext.pic_scaling_list_present_flag
    second_chroma_qp_index_offset := ext.second_chroma_qp_index_offset }

/-- The slice-group block of `PPS.__init__`: the branch is entered only
when `num_slice_groups_minus1 > 0`; otherwise the fields default to
`slice_group_map_type = 0` and empty lists, as in the Python else-branch. -/
def parsePPSGroup (nsgm1 : Nat) (r : BitReader) :
    Option (PPSGroupFields × BitReader) :=
  if nsgm1 > 0 then parsePPSGroupBranch nsgm1 r
  else some (({ slice_group_map_type := 0 } : PPSGroupFields), r)

/-- `nalutypes.PPS.__init__`: the full PPS field parse. -/
def PPS.parse (r0 : BitReader) : Option PPSRec := do
  let (ppsId, r) ← read_ue r0
  let (seqId, r) ← read_ue r
  let (entropy, r) ← readBits r 1
  let (order, r) ← readBits r 1
  let (nsgm1, r) ← read_ue r
  let (grp, r) ← parsePPSGroup nsgm1 r
  let (mid, r) ← parsePPSMid r
  let (ext, _r) ← parsePPSExt r
  some (PPS.assemble ppsId seqId entropy order nsgm1 grp mid ext)

/-! ### Cursor-advancement lemmas for the bit reader -/

theorem readBits_advance {r : BitReader} {n v : Nat} {r' : BitReader}
    (h : readBits r n = some (v, r')) :
    r'.bits = r.bits ∧ r'.pos = r.pos + n := by
  unfold readBits at h
  split at h
  · simp only [Option.some.injEq, Prod.mk.injEq] at h
    obtain ⟨_hv, hr⟩ := h
    subst hr
    exact ⟨rfl, rfl⟩
  · exact absurd h (by simp)

theorem read_ue_advance {r : BitReader} {v : Nat} {r' : BitReader}
    (h : read_ue r = some (v, r')) :
    r'.bits = r.bits ∧ r.pos < r'.pos := by
  unfold read_ue at h
  simp only [Option.pure_def, Option.bind_eq_bind, Option.bind_eq_some,
    Option.some.injEq, Prod.mk.injEq] at h
  obtain ⟨k, _hk, ⟨suffix, r''⟩, hr, _hv, hr'⟩ := h
  subst hr'
  obtain ⟨hb, hp⟩ := readBits_advance hr
  refine ⟨hb, ?_⟩
  rw [hp]
  show r.pos < r.pos + k + 1 + k
  omega

theorem read_se_advance {r : BitReader} {v : Int} {r' : BitReader}
    (h : read_se r = some (v, r')) :
    r'.bits = r.bits ∧ r.pos < r'.pos := by
  unfold read_se at h
  simp only [Option.pure_def, Option.bind_eq_bind, Option.bind_eq_some,
    Option.some.injEq, Prod.mk.injEq] at h
  obtain ⟨⟨k, r''⟩, hk, _hv, hr'⟩ := h
  subst hr'
  exact read_ue_advance hk

/-! ### Slice-header decoder, from `nalutypes.CodedSlice` -/

/-- `nalutypes.get_slice_type_str`: the `slice_type mod 5` to string map. -/
def get_slice_type_str (slice_type_mod_5 : Nat) : String :=
  match slice_type_mod_5 with
  | 0 => "P"
  | 1 => "B"
  | 2 => "I"
  | 3 => "SP"
  | _ => "SI"

/-- Phases 1-5 of `CodedSlice.__init__`: mandatory leading fields, the
colour-plane id, `frame_num`, the field flags, and `idr_pic_id`. -/
structure SliceHead where
  first_mb_in_slice : Nat
  slice_type : Nat
  slice_type_str : String
  pic_parameter_set_id : Nat
  colour_plane_id : Option Nat := none
  frame_num : Nat
  field_pic_flag : Option Nat := none
  bottom_field_flag : Option Nat := none
  idr_pic_id : Option Nat := none
  is_idr : Bool
  deriving Repr

/-- The `field_pic_flag`/`bottom_field_flag` pair, read only when
`frame_mbs_only_flag == 0`; the bottom flag only when the field flag is
truthy. -/
def parseFieldFlags (r : BitReader) :
    Option ((Option Nat × Option Nat) × BitReader) := do
  let (f, r) ← readBits r 1
  if f ≠ 0 then do
    let (b, r) ← readBits r 1
    some ((some f, some b), r)
  else
    some ((some f, none), r)

/-- The `colour_plane_id` read of `CodedSlice.__init__`, gated by
`getattr(sps, "separate_colour_plane_flag", 0) == 1`. -/
def readColourPlaneId (sps : SPSRec) (r : BitReader) :
    Option (Option Nat × BitReader) :=
  if sps.separate_colour_plane_flag.getD 0 = 1 then do
    let (v, r) ← readBits r 2
    some (some v, r)
  else some (none, r)

/-- The field-flag pair of `CodedSlice.__init__`, read only when the SPS
has `frame_mbs_only_flag == 0`. -/
def readFrameFieldFlags (sps : SPSRec) (r : BitReader) :
    Option ((Option Nat × Option Nat) × BitReader) :=
  if sps.frame_mbs_only_flag = 0 then parseFieldFlags r
  else some ((none, none), r)

/-- The `idr_pic_id` read of `CodedSlice.__init__`, gated on the NALU being
an IDR slice (`nal_unit_type = 5`). -/
def readIdrPicId (nal : Nat) (r : BitReader) :
    Option (Option Nat × BitReader) :=
  if nal = 5 then do
    let (v, r) ← read_ue r
    some (some v, r)
  else some (none, r)

/-- Phases 1-5 of `CodedSlice.__init__` (`nal_unit_type = 5` marks IDR). -/
def parseSliceHead (sps : SPSRec) (nal : Nat) (r0 : BitReader) :
    Option (SliceHead × BitReader) := do
  let (first_mb_in_slice, r) ← read_ue r0
  let (slice_type, r) ← read_ue r
  let (pic_parameter_set_id, r) ← read_ue r
  let (cp, r) ← readColourPlaneId sps r
  let (frame_num, r) ← readBits r (sps.log2_max_frame_num_minus4 + 4)
  let (ff, r) ← readFrameFieldFlags sps r
  let (idr, r) ← readIdrPicId nal r
  some ({ first_mb_in_slice := first_mb_in_slice
          slice_type := slice_type
          slice_type_str := get_slice_type_str (slice_type % 5)
          pic_parameter_set_id := pic_parameter_set_id
          colour_plane_id := cp
          frame_num := frame_num
          field_pic_flag := ff.1
          bottom_field_flag := ff.2
          idr_pic_id := idr
          is_idr := nal = 5 }, r)

/-- Python truthiness of `self.field_pic_flag and self.bottom_field_flag`
(`None` and `0` are falsy). -/
def fieldAndBottom (h : SliceHead) : Bool :=
  h.field_pic_flag.getD 0 ≠ 0 ∧ h.bottom_field_flag.getD 0 ≠ 0

/-- Phase 6 of `CodedSlice.__init__`: the picture-order-count fields. -/
structure SlicePocFields where
  pic_order_cnt_lsb : Option Nat := none
  delta_pic_order_cnt_bottom : Option Int := none
  delta_pic_order_cnt_0 : Option Int := none
  delta_pic_order_cnt_1 : Option Int := none
  deriving Repr

/-- Phase 6 of `CodedSlice.__init__`: `pic_order_cnt_type == 0` reads
`pic_order_cnt_lsb` (width from the SPS) and conditionally
`delta_pic_order_cnt_bottom`; type 1 without `delta_pic_order_always_zero_flag`
reads one or two signed deltas. The direct attribute access
`sps.log2_max_pic_order_cnt_lsb_minus4` fails when unset. -/
def parseSlicePoc (sps : SPSRec) (pps : PPSRec) (h : SliceHead)
    (r : BitReader) : Option (SlicePocFields × BitReader) :=
  if sps.pic_order_cnt_type = 0 then do
    let lsbM4 ← sps.log2_max_pic_order_cnt_lsb_minus4
    let (lsb, r) ← readBits r (lsbM4 + 4)
    if pps.pic_order_present_flag ≠ 0 ∧ ¬fieldAndBottom h then do
      let (d, r) ← read_se r
      some ({ pic_order_cnt_lsb := some lsb
              delta_pic_order_cnt_bottom := some d }, r)
    else
      some ({ pic_order_cnt_lsb := some lsb }, r)
  else if sps.pic_order_cnt_type = 1 ∧
      sps.delta_pic_order_always_zero_flag.getD 0 = 0 then do
    let (d0, r) ← read_se r
    if pps.pic_order_present_flag ≠ 0 ∧ ¬fieldAndBottom h then do
      let (d1, r) ← read_se r
      some ({ delta_pic_order_cnt_0 := some d0
              delta_pic_order_cnt_1 := some d1 }, r)
    else
      some ({ delta_pic_order_cnt_0 := some d0 }, r)
  else
    some ({}, r)

/-- Phases 7-9 of `CodedSlice.__init__`: `redundant_pic_cnt`,
`direct_spatial_mv_pred_flag`, and the reference-count override. -/
structure SliceRefFields where
  redundant_pic_cnt : Option Nat := none
  direct_spatial_mv_pred_flag : Option Nat := none
  num_ref_idx_active_override_flag : Option Nat := none
  num_ref_idx_l0_active_minus1 : Nat
  num_ref_idx_l1_active_minus1 : Nat
  deriving Repr

/-- The override branch of phase 9: when the override flag is truthy, the
L0 count is re-read, and for B-slices the L1 count too. -/
def parseRefOverride (mod5 l0 l1 : Nat) (r : BitReader) :
    Option ((Option Nat × Nat × Nat) × BitReader) := do
  let (ovr, r) ← readBits r 1
  if ovr ≠ 0 then do
    let (l0n, r) ← read_ue r
    if mod5 = 1 then do
      let (l1n, r) ← read_ue r
      some ((some ovr, l0n, l1n), r)
    else
      some ((some ovr, l0n, l1), r)
  else
    some ((some ovr, l0, l1), r)

/-- Phases 7-9 of `CodedSlice.__init__`. The counts start from the PPS
defaults and are overridden only for P/SP/B slices with the flag set. -/
def parseSliceRef (pps : PPSRec) (mod5 : Nat) (r : BitReader) :
    Option (SliceRefFields × BitReader) := do
  let (red, r) ←
    if pps.redundant_pic_cnt_present_flag = 1 then do
      let (v, r) ← read_ue r
      some (some v, r)
    else some ((none : Option Nat), r)
  let (dsmv, r) ←
    if mod5 = 1 then do
      let (v, r) ← readBits r 1
      some (some v, r)
    else some ((none : Option Nat), r)
  let l0 := pps.num_ref_idx_l0_active_minus1
  let l1 := pps.num_ref_idx_l1_active_minus1
  let (ovr, r) ←
    if mod5 = 0 ∨ mod5 = 3 ∨ mod5 = 1 then parseRefOverride mod5 l0 l1 r
    else some (((none : Option Nat), l0, l1), r)
  some ({ redundant_pic_cnt := red
          direct_spatial_mv_pred_flag := dsmv
          num_ref_idx_active_override_flag := ovr.1
          num_ref_idx_l0_active_minus1 := ovr.2.1
          num_ref_idx_l1_active_minus1 := ovr.2.2 }, r)

/-- One list of `CodedSlice._parse_ref_pic_list_modification`: up to `n`
`(modification_of_pic_nums_idc, value)` pairs, stopping early on idc 3. -/
def refModLoop : Nat → BitReader → Option BitReader
  | 0, r => some r
  | n + 1, r => do
    let (idc, r) ← read_ue r
    if idc = 3 then some r
    else do
      let (_v, r) ← read_ue r
      refModLoop n r

/-- `CodedSlice._parse_ref_pic_list_modification`: the L0 flag and loop for
non-I/SI slices, plus the L1 flag and loop for B-slices. Returns the two
modification flags. -/
def parseRefPicListModification (mod5 l0 l1 : Nat) (r : BitReader) :
    Option ((Option Nat × Option Nat) × BitReader) := do
  let (f0, r) ← readBits r 1
  let r ←
    if f0 ≠ 0 then refModLoop (l0 + 1) r
    else some r
  if mod5 = 1 then do
    let (f1, r) ← readBits r 1
    let r ←
      if f1 ≠ 0 then refModLoop (l1 + 1) r
      else some r
    some ((some f0, some f1), r)
  else
    some ((some f0, (none : Option Nat)), r)

/-- One reference entry of `CodedSlice._parse_pred_weight_table`: a luma
weight flag gating a signed pair, and for non-monochrome chroma a chroma
weight flag gating two signed pairs. -/
def weightEntry (chroma : Nat) (r : BitReader) : Option BitReader := do
  let (lflag, r) ← readBits r 1
  let r ←
    if lflag ≠ 0 then do
      let (_w, r) ← read_se r
      let (_o, r) ← read_se r
      some r
    else some r
  if chroma ≠ 0 then do
    let (cflag, r) ← readBits r 1
    if cflag ≠ 0 then do
      let (_wcb, r) ← read_se r
      let (_ocb, r) ← read_se r
      let (_wcr, r) ← read_se r
      let (_ocr, r) ← read_se r
      some r
    else some r
  else some r

/-- The per-list loop of `CodedSlice._parse_pred_weight_table`. -/
def weightEntriesLoop (chroma : Nat) : Nat → BitReader → Option BitReader
  | 0, r => some r
  | n + 1, r => do
    let r ← weightEntry chroma r
    weightEntriesLoop chroma n r

/-- `CodedSlice._parse_pred_weight_table`: the direct access
`sps.chroma_format_idc` fails when the SPS never set it (baseline profile). -/
def parsePredWeightTable (sps : SPSRec) (sliceType l0 l1 : Nat)
    (r : BitReader) : Option BitReader := do
  let chroma ← sps.chroma_format_idc
  let (_luma_log2_weight_denom, r) ← read_ue r
  let r ←
    if chroma ≠ 0 then do
      let (_chroma_log2_weight_denom, r) ← read_ue r
      some r
    else some r
  let r ← weightEntriesLoop chroma (l0 + 1) r
  if sliceType % 5 = 1 then weightEntriesLoop chroma (l1 + 1) r
  else some r

/-- Read (and discard) one unsigned Exp-Golomb operand when `c` holds,
modelling one of the sequential `if` tests of
`CodedSlice._parse_dec_ref_pic_marking`. -/
def readUeWhen (c : Prop) [Decidable c] (r : BitReader) : Option BitReader :=
  if c then do
    let (_operand, r) ← read_ue r
    some r
  else some r

theorem readUeWhen_advance {c : Prop} [inst : Decidable c] {a b : BitReader}
    (hc : readUeWhen c a = some b) : b.bits = a.bits ∧ a.pos ≤ b.pos := by
  unfold readUeWhen at hc
  split at hc
  · simp only [Option.pure_def, Option.bind_eq_bind, Option.bind_eq_some,
      Option.some.injEq] at hc
    obtain ⟨⟨v, rr⟩, hv, hb⟩ := hc
    subst hb
    obtain ⟨hbits, hpos⟩ := read_ue_advance hv
    exact ⟨hbits, Nat.le_of_lt hpos⟩
  · cases hc
    exact ⟨rfl, Nat.le_refl _⟩

/-- The 0-2 extra operands of one memory-management control operation, per
the sequential `if` tests of `CodedSlice._parse_dec_ref_pic_marking`
(operation 3 reads two operands: `difference_of_pic_nums_minus1` and
`long_term_frame_idx`; operation 2 reads `long_term_pic_num`; operation 4
reads `max_long_term_frame_idx_plus1`). -/
def mmcoOperands (op : Nat) (r : BitReader) : Option BitReader := do
  let r ← readUeWhen (op = 1 ∨ op = 3) r
  let r ← readUeWhen (op = 2) r
  let r ← readUeWhen (op = 3 ∨ op = 6) r
  readUeWhen (op = 4) r

theorem mmcoOperands_advance {op : Nat} {r r' : BitReader}
    (h : mmcoOperands op r = some r') :
    r'.bits = r.bits ∧ r.pos ≤ r'.pos := by
  unfold mmcoOperands at h
  simp only [Option.pure_def, Option.bind_eq_bind, Option.bind_eq_some,
    Option.some.injEq] at h
  obtain ⟨r1, h1, r2, h2, r3, h3, h4⟩ := h
  obtain ⟨b1, p1⟩ := readUeWhen_advance h1
  obtain ⟨b2, p2⟩ := readUeWhen_advance h2
  obtain ⟨b3, p3⟩ := readUeWhen_advance h3
  obtain ⟨b4, p4⟩ := readUeWhen_advance h4
  exact ⟨by rw [b4, b3, b2, b1], by omega⟩

/-- The `while self.s.pos < len(self.s)` loop of
`CodedSlice._parse_dec_ref_pic_marking`: read an operation code, stop on 0,
otherwise read its operands and continue. Total because every iteration
strictly advances the cursor over unchanged bits. -/
def mmcoLoop (r : BitReader) : Option BitReader :=
  if h : r.pos < r.bits.length then
    match hu : read_ue r with
    | none => none
    | some (op, r') =>
      if op = 0 then some r'
      else
        match ho : mmcoOperands op r' with
        | none => none
        | some r'' => mmcoLoop r''
  else some r
termination_by r.bits.length - r.pos
decreasing_by
  obtain ⟨hb1, hp1⟩ := read_ue_advance hu
  obtain ⟨hb2, hp2⟩ := mmcoOperands_advance ho
  rw [hb2, hb1]
  omega

/-- `CodedSlice._parse_dec_ref_pic_marking` (non-IDR): the adaptive-marking
flag, then the operation loop when the flag is truthy. -/
def parseDecRefPicMarking (r : BitReader) : Option (Nat × BitReader) := do
  let (flag, r) ← readBits r 1
  if flag ≠ 0 then do
    let r ← mmcoLoop r
    some (flag, r)
  else
    some (flag, r)

/-- Phase 12 of `CodedSlice.__init__`: decoded-reference-picture marking. -/
structure SliceMarkFields where
  no_output_of_prior_pics_flag : Option Nat := none
  long_term_reference_flag : Option Nat := none
  adaptive_ref_pic_marking_mode_flag : Option Nat := none
  deriving Repr

/-- Phase 12 of `CodedSlice.__init__`: IDR slices read two fixed flags;
non-IDR slices run `_parse_dec_ref_pic_marking`. -/
def parseSliceMarking (nal : Nat) (r : BitReader) :
    Option (SliceMarkFields × BitReader) :=
  if nal = 5 then do
    let (noOut, r) ← readBits r 1
    let (longTerm, r) ← readBits r 1
    some ({ no_output_of_prior_pics_flag := some noOut
            long_term_reference_flag := some longTerm }, r)
  else do
    let (flag, r) ← parseDecRefPicMarking r
    some ({ adaptive_ref_pic_marking_mode_flag := some flag }, r)

/-- Phases 13-15 of `CodedSlice.__init__`: `cabac_init_idc`,
`slice_qp_delta`, and the SP/SI quantization fields. -/
structure SliceQpFields where
  cabac_init_idc : Option Nat := none
  slice_qp_delta : Int
  sp_for_switch_flag : Option Nat := none
  slice_qs_delta : Option Int := none
  deriving Repr

/-- Phases 13-15 of `CodedSlice.__init__`. -/
def parseSliceQp (pps : PPSRec) (mod5 : Nat) (r : BitReader) :
    Option (SliceQpFields × BitReader) := do
  let (cabac, r) ←
    if pps.entropy_coding_mode_flag = 1 ∧ ¬(mod5 = 2 ∨ mod5 = 4) then do
      let (v, r) ← read_ue r
      some (some v, r)
    else some ((none : Option Nat), r)
  let (qp, r) ← read_se r
  if mod5 = 3 ∨ mod5 = 4 then do
    let (sp, r) ←
      if mod5 = 3 then do
        let (v, r) ← readBits r 1
        some (some v, r)
      else some ((none : Option Nat), r)
    let (qs, r) ← read_se r
    some ({ cabac_init_idc := cabac
            slice_qp_delta := qp
            sp_for_switch_flag := sp
            slice_qs_delta := some qs }, r)
  else
    some ({ cabac_init_idc := cabac, slice_qp_delta := qp }, r)

/-- Phase 16 of `CodedSlice.__init__`: the deblocking-filter triple; absent
fields default to 0. -/
structure SliceDeblockFields where
  disable_deblocking_filter_idc : Nat := 0
  slice_alpha_c0_offset_div2 : Int := 0
  slice_beta_offset_div2 : Int := 0
  deriving Repr

/-- Phase 16 of `CodedSlice.__init__`. -/
def parseSliceDeblock (pps : PPSRec) (r : BitReader) :
    Option (SliceDeblockFields × BitReader) :=
  if pps.deblocking_filter_control_present_flag ≠ 0 then do
    let (idc, r) ← read_ue r
    if idc ≠ 1 then do
      let (alpha, r) ← read_se r
      let (beta, r) ← read_se r
      some ({ disable_deblocking_filter_idc := idc
              slice_alpha_c0_offset_div2 := alpha
              slice_beta_offset_div2 := beta }, r)
    else
      some ({ disable_deblocking_filter_idc := idc }, r)
  else
    some ({}, r)

/-- Phase 17 of `CodedSlice.__init__`: `slice_group_change_cycle`, read only
when the PPS has multiple slice groups with map type 3, 4 or 5; its width is
`ceil(log2(PicSizeInMapUnits / (slice_group_change_rate_minus1 + 1) + 1))`
with `PicSizeInMapUnits` computed from the SPS geometry (doubled for
field-coded streams). The direct attribute access
`pps.slice_group_change_rate_minus1` fails when unset. -/
def parseSliceGroupChangeCycle (sps : SPSRec) (pps : PPSRec)
    (r : BitReader) : Option (Option Nat × BitReader) :=
  if pps.num_slice_groups_minus1 > 0 ∧
      (pps.slice_group_map_type = 3 ∨ pps.slice_group_map_type = 4 ∨
        pps.slice_group_map_type = 5) then do
    let rate ← pps.slice_group_change_rate_minus1
    let base := (sps.pic_width_in_mbs_minus_1 + 1) *
      (sps.pic_height_in_map_units_minus_1 + 1)
    let picSize := if sps.frame_mbs_only_flag = 0 then 2 * base else base
    let maxValue := picSize / (rate + 1)
    let (v, r) ← readBits r (Nat.clog 2 (maxValue + 1))
    some (some v, r)
  else
    some (none, r)

/-- The decoded fields of a coded slice header (IDR or non-IDR), together
with the final reader (`self.s`, whose cursor sits at the end of the
header) and the recorded `_slice_header_size_bits`. -/
structure CodedSliceRec where
  is_idr : Bool
  first_mb_in_slice : Nat
  slice_type : Nat
  slice_type_str : String
  pic_parameter_set_id : Nat
  colour_plane_id : Option Nat
  frame_num : Nat
  field_pic_flag : Option Nat
  bottom_field_flag : Option Nat
  idr_pic_id : Option Nat
  pic_order_cnt_lsb : Option Nat
  delta_pic_order_cnt_bottom : Option Int
  delta_pic_order_cnt_0 : Option Int
  delta_pic_order_cnt_1 : Option Int
  redundant_pic_cnt : Option Nat
  direct_spatial_mv_pred_flag : Option Nat
  num_ref_idx_active_override_flag : Option Nat
  num_ref_idx_l0_active_minus1 : Nat
  num_ref_idx_l1_active_minus1 : Nat
  ref_pic_list_modification_flag_l0 : Option Nat
  ref_pic_list_modification_flag_l1 : Option Nat
  no_output_of_prior_pics_flag : Option Nat
  long_term_reference_flag : Option Nat
  adaptive_ref_pic_marking_mode_flag : Option Nat
  cabac_init_idc : Option Nat
  slice_qp_delta : Int
  sp_for_switch_flag : Option Nat
  slice_qs_delta : Option Int
  disable_deblocking_filter_idc : Nat
  slice_alpha_c0_offset_div2 : Int
  slice_beta_offset_div2 : Int
  slice_group_change_cycle : Option Nat
  slice_header_size_bits : Nat
  s : BitReader
  deriving Repr

/-- Assembles the final `CodedSliceRec`, mirroring the attribute
assignments of `CodedSlice.__init__`; `startBits` is the cursor position
snapshot taken at entry, `rEnd` the reader at the end of the header. -/
def CodedSlice.assemble (head : SliceHead) (poc : SlicePocFields)
    (ref : SliceRefFields) (mods : Option Nat × Option Nat)
    (mark : SliceMarkFields) (qp : SliceQpFields)
    (deblock : SliceDeblockFields) (sgcc : Option Nat)
    (startBits : Nat) (rEnd : BitReader) : CodedSliceRec :=
  { is_idr := head.is_idr
    first_mb_in_slice := head.first_mb_in_slice
    slice_type := head.slice_type
    slice_type_str := head.slice_type_str
    pic_parameter_set_id := head.pic_parameter_set_id
    colour_plane_id := head.colour_plane_id
    frame_num := head.frame_num
    field_pic_flag := head.field_pic_flag
    bottom_field_flag := head.bottom_field_flag
    idr_pic_id := head.idr_pic_id
    pic_order_cnt_lsb := poc.pic_order_cnt_lsb
    delta_pic_order_cnt_bottom := poc.delta_pic_order_cnt_bottom
    delta_pic_order_cnt_0 := poc.delta_pic_order_cnt_0
    delta_pic_order_cnt_1 := poc.delta_pic_order_cnt_1
    redundant_pic_cnt := ref.redundant_pic_cnt
    direct_spatial_mv_pred_flag := ref.direct_spatial_mv_pred_flag
    num_ref_idx_active_override_flag := ref.num_ref_idx_active_override_flag
    num_ref_idx_l0_active_minus1 := ref.num_ref_idx_l0_active_minus1
    num_ref_idx_l1_active_minus1 := ref.num_ref_idx_l1_active_minus1
    ref_pic_list_modification_flag_l0 := mods.1
    ref_pic_list_modification_flag_l1 := mods.2
    no_output_of_prior_pics_flag := mark.no_output_of_prior_pics_flag
    long_term_reference_flag := mark.long_term_reference_flag
    adaptive_ref_pic_marking_mode_flag := mark.adaptive_ref_pic_marking_mode_flag
    cabac_init_idc := qp.cabac_init_idc
    slice_qp_delta := qp.slice_qp_delta
    sp_for_switch_flag := qp.sp_for_switch_flag
    slice_qs_delta := qp.slice_qs_delta
    disable_deblocking_filter_idc := deblock.disable_deblocking_filter_idc
    slice_alpha_c0_offset_div2 := deblock.slice_alpha_c0_offset_div2
    slice_beta_offset_div2 := deblock.slice_beta_offset_div2
    slice_group_change_cycle := sgcc
    slice_header_size_bits := rEnd.pos - startBits
    s := rEnd }

/-- Phase 10 of `CodedSlice.__init__`: reference-list modification is read
for every slice that is not I or SI. -/
def parseSliceMods (mod5 l0 l1 : Nat) (r : BitReader) :
    Option ((Option Nat × Option Nat) × BitReader) :=
  if ¬(mod5 = 2 ∨ mod5 = 4) then
    parseRefPicListModification mod5 l0 l1 r
  else some ((none, none), r)

/-- Phase 11 of `CodedSlice.__init__`: the prediction-weight table is read
for P/SP slices under `weighted_pred_flag` and for B slices under
`weighted_bipred_idc == 1`. -/
def parseSlicePredWeight (sps : SPSRec) (pps : PPSRec)
    (mod5 sliceType l0 l1 : Nat) (r : BitReader) : Option BitReader :=
  if ((mod5 = 0 ∨ mod5 = 3) ∧ pps.weighted_pred_flag ≠ 0) ∨
      (mod5 = 1 ∧ pps.weighted_bipred_idc = 1) then
    parsePredWeightTable sps sliceType l0 l1 r
  else some r

/-- `nalutypes.CodedSlice.__init__`: the full slice-header parse against an
SPS/PPS context pair. A `none` context models the Python `AttributeError`
raised when `parse()` reaches a slice before having decoded an SPS or PPS. -/
def CodedSlice.parse (r0 : BitReader) (spsCtx : Option SPSRec)
    (ppsCtx : Option PPSRec) (nal : Nat) : Option CodedSliceRec := do
  let sps ← spsCtx
  let pps ← ppsCtx
  let startBits := r0.pos
  let (head, r) ← parseSliceHead sps nal r0
  let mod5 := head.slice_type % 5
  let (poc, r) ← parseSlicePoc sps pps head r
  let (ref, r) ← parseSliceRef pps mod5 r
  let (mods, r) ← parseSliceMods mod5 ref.num_ref_idx_l0_active_minus1
    ref.num_ref_idx_l1_active_minus1 r
  let r ← parseSlicePredWeight sps pps mod5 head.slice_type
    ref.num_ref_idx_l0_active_minus1 ref.num_ref_idx_l1_active_minus1 r
  let (mark, r) ← parseSliceMarking nal r
  let (qp, r) ← parseSliceQp pps mod5 r
  let (deblock, r) ← parseSliceDeblock pps r
  let (sgcc, r) ← parseSliceGroupChangeCycle sps pps r
  some (CodedSlice.assemble head poc ref mods mark qp deblock sgcc startBits r)

/-- `CodedSlice.get_slice_header_size`: header size in bytes, rounded up
from bits. -/
def get_slice_header_size (cs : CodedSliceRec) : Nat :=
  (cs.slice_header_size_bits + 7) / 8

/-- `CodedSlice.get_slice_payload_size`: payload size in bytes, computed
with Python floor division `(len(self.s) - self._slice_header_size_bits) // 8`. -/
def get_slice_payload_size (cs : CodedSliceRec) : Nat :=
  (cs.s.bits.length - cs.slice_header_size_bits) / 8

/-! ### Dispatcher, from `H26xParser.parse` -/

/-- The decoder context: the local variables `nalu_sps` and `nalu_pps` of
`H26xParser.parse`, each overwritten only when a NALU of its own kind is
decoded. -/
structure Ctx where
  sps : Option SPSRec := none
  pps : Option PPSRec := none
  deriving Repr

/-- One callback invocation made through `H26xParser.__call`: the callback
name and the positional byte-buffer arguments passed to it. The code
passes a single buffer to every callback (`nalu_bytes` for `"nalu"`, the
de-emulated `rbsp_payload` for the others). -/
structure Event where
  name : String
  args : List (List Nat)
  deriving Repr, DecidableEq

/-- The `TypeError` raised by `nalutypes.SPS(rbsp_payload, self.verbose)`:
`SPS.__init__` accepts only `rbsp_bytes`, so the extra `verbose` argument
makes every SPS branch of `parse()` raise before `SPS.__init__` runs. -/
def spsTypeErrorMsg : String :=
  "TypeError: SPS.__init__ takes 2 positional arguments but 3 were given"

/-- The `TypeError` raised by `nalutypes.PPS(rbsp_payload, self.verbose)`. -/
def ppsTypeErrorMsg : String :=
  "TypeError: PPS.__init__ takes 2 positional arguments but 3 were given"

/-- The `TypeError` raised by `nalutypes.AUD(rbsp_payload, self.verbose)`. -/
def audTypeErrorMsg : String :=
  "TypeError: AUD.__init__ takes 2 positional arguments but 3 were given"

/-- The `AttributeError` raised by the lookup `nalutypes.CodedSliceNonIDR`
in `parse()`: no such class exists in `nalutypes.py` (only `CodedSlice`),
and the attribute lookup raises before any argument is evaluated. -/
def nonIdrAttributeErrorMsg : String :=
  "AttributeError: module nalutypes has no attribute CodedSliceNonIDR"

/-- The `AttributeError` raised by the lookup `nalutypes.CodedSliceIDR`. -/
def idrAttributeErrorMsg : String :=
  "AttributeError: module nalutypes has no attribute CodedSliceIDR"

/-- Dispatch of one located NALU segment (`seg` spans start code through
last payload byte), mirroring the `if/elif` chain on `nal_unit_type` in
`H26xParser.parse`. In the source every branch of that chain raises
unconditionally: the SPS (7), PPS (8) and AUD (9) branches call the
`nalutypes` constructors with an extra `verbose` argument their
`__init__(self, rbsp_bytes)` signatures do not accept (`TypeError`), and
the slice branches (1, 5) look up the classes `CodedSliceNonIDR` and
`CodedSliceIDR`, which do not exist in `nalutypes.py` (`AttributeError`
before any argument is evaluated). Only NALU types outside the chain fall
through, delivering nothing but the `"nalu"` callback. The `"nalu"`
callback of an aborting segment has already fired in the Python code
before the exception; the `Except` model does not record events of an
aborted parse. The context slots and the slice local are therefore never
written: the returned context is always the input context and the slice
slot is always `none`. -/
def dispatchNalu (ctx : Ctx) (seg : List Nat) :
    Except String (Ctx × Option CodedSliceRec × List Event) :=
  match decodeNalu seg with
  | none => .error "truncated NALU header"
  | some (t, _rbsp) =>
    let naluEvent : Event := { name := "nalu", args := [seg] }
    if t = 7 then .error spsTypeErrorMsg
    else if t = 8 then .error ppsTypeErrorMsg
    else if t = 9 then .error audTypeErrorMsg
    else if t = 1 then .error nonIdrAttributeErrorMsg
    else if t = 5 then .error idrAttributeErrorMsg
    else .ok (ctx, none, [naluEvent])

/-- The per-NALU loop of `H26xParser.parse` over the located segments,
threading the `nalu_sps`/`nalu_pps` context and collecting the decoded
slices and the callback events in stream order. -/
def processUnits (ctx : Ctx) :
    List (List Nat) → Except String (Ctx × List CodedSliceRec × List Event)
  | [] => .ok (ctx, [], [])
  | seg :: rest =>
    match dispatchNalu ctx seg with
    | .error e => .error e
    | .ok (ctx', cs, evs) =>
      match processUnits ctx' rest with
      | .error e => .error e
      | .ok (ctxF, css, evsR) => .ok (ctxF, cs.toList ++ css, evs ++ evsR)

/-- The NALU byte segments cut from the buffer by consecutive position
pairs (`zip` with `islice(..., 1, None)` in the Python code); positions are
bit positions, converted back to byte indices with integer division. -/
def segmentsOf (buf : List Nat) : List Nat → List (List Nat)
  | p :: q :: rest => ((buf.drop (p / 8)).take (q / 8 - p / 8)) ::
      segmentsOf buf (q :: rest)
  | _ => []

/-- `H26xParser.parse`: locate the NALUs, then dispatch each segment in
order, starting from an empty SPS/PPS context; a locator failure (the
`SystemExit` of `_get_nalu_positions`) propagates to the caller. -/
def parse (buf : List Nat) :
    Except String (Ctx × List CodedSliceRec × List Event) :=
  match getNaluPositions buf with
  | .error e => .error e
  | .ok positions => processUnits {} (segmentsOf buf positions)

/-! ## Claim theorems -/

/-- The concrete baseline-profile SPS used by the slice witnesses. -/
def demoSPS : SPSRec :=
  (SPS.parse ⟨bytesToBits [0x42, 0x00, 0x1E, 0xF4, 0xF0], 0⟩).get (by rfl)

/-- The concrete PPS used by the slice witnesses. -/
def demoPPS : PPSRec :=
  (PPS.parse ⟨bytesToBits [0xCE, 0x38], 0⟩).get (by rfl)

/-- The concrete non-IDR P-slice decoded against `demoSPS`/`demoPPS`: a
19-bit header inside a 24-bit payload. -/
def demoSlice : CodedSliceRec :=
  (CodedSlice.parse ⟨bytesToBits [0x9A, 0x24, 0x20], 0⟩ (some demoSPS)
    (some demoPPS) 1).get (by rfl)

theorem parseSliceHead_fields {sps : SPSRec} {nal : Nat} {r0 : BitReader}
    {head : SliceHead} {r' : BitReader}
    (h : parseSliceHead sps nal r0 = some (head, r')) :
    head.is_idr = decide (nal = 5) ∧
    head.slice_type_str = get_slice_type_str (head.slice_type % 5) ∧
    (nal ≠ 5 → head.idr_pic_id = none) := by
  unfold parseSliceHead at h
  simp only [Option.pure_def, Option.bind_eq_bind, Option.bind_eq_some,
    Option.some.injEq, Prod.mk.injEq] at h
  obtain ⟨⟨fmb, r1⟩, _h1, ⟨st, r2⟩, _h2, ⟨ppsId, r3⟩, _h3, ⟨cp, r4⟩, _h4,
    ⟨fn, r5⟩, _h5, ⟨ff, r6⟩, _h6, ⟨idr, r7⟩, h7, hhead, _hr⟩ := h
  subst hhead
  refine ⟨rfl, rfl, fun hnal => ?_⟩
  unfold readIdrPicId at h7
  rw [if_neg hnal] at h7
  simp only [Option.some.injEq, Prod.mk.injEq] at h7
  exact h7.1.symm

theorem readTopLeftBottomRight_length :
    ∀ (n : Nat) (r : BitReader) (tls brs : List Nat) (r' : BitReader),
      readTopLeftBottomRight n r = some (tls, brs, r') →
      tls.length = n ∧ brs.length = n := by
  intro n
  induction n with
  | zero =>
    intro r tls brs r' h
    simp only [readTopLeftBottomRight, Option.some.injEq, Prod.mk.injEq] at h
    obtain ⟨h1, h2, _⟩ := h
    subst h1
    subst h2
    exact ⟨rfl, rfl⟩
  | succ n ih =>
    intro r tls brs r' h
    simp only [readTopLeftBottomRight, Option.pure_def, Option.bind_eq_bind,
      Option.bind_eq_some, Option.some.injEq, Prod.mk.injEq] at h
    obtain ⟨⟨tl, r1⟩, _h1, ⟨br, r2⟩, _h2, ⟨tls', brs', r3⟩, h3, htl, hbr, _hr⟩ := h
    obtain ⟨l1, l2⟩ := ih r2 tls' brs' r3 h3
    subst htl
    subst hbr
    simp [l1, l2]

theorem parsePPSGroupBranch_type2_lengths {nsgm1 : Nat} {r : BitReader}
    {grp : PPSGroupFields} {r' : BitReader}
    (h : parsePPSGroupBranch nsgm1 r = some (grp, r'))
    (ht : grp.slice_group_map_type = 2) :
    grp.top_left.length = nsgm1 ∧ grp.bottom_right.length = nsgm1 := by
  unfold parsePPSGroupBranch at h
  simp only [Option.pure_def, Option.bind_eq_bind, Option.bind_eq_some,
    Option.some.injEq, Prod.mk.injEq] at h
  obtain ⟨⟨mt, r1⟩, _h1, h⟩ := h
  split at h
  · -- map type 0: contradicts slice_group_map_type = 2
    simp only [Option.pure_def, Option.bind_eq_bind, Option.bind_eq_some,
      Option.some.injEq, Prod.mk.injEq] at h
    obtain ⟨⟨runs, r2⟩, _h2, hgrp, _hr⟩ := h
    rw [← hgrp] at ht
    simp_all
  · split at h
    · -- map type 2: the pair loop runs nsgm1 times
      simp only [Option.pure_def, Option.bind_eq_bind, Option.bind_eq_some,
        Option.some.injEq, Prod.mk.injEq] at h
      obtain ⟨⟨tls, brs, r2⟩, h2, hgrp, _hr⟩ := h
      obtain ⟨l1, l2⟩ := readTopLeftBottomRight_length nsgm1 r1 tls brs r2 h2
      rw [← hgrp]
      exact ⟨l1, l2⟩
    · split at h
      · -- map types 3/4/5: contradicts slice_group_map_type = 2
        simp only [Option.pure_def, Option.bind_eq_bind, Option.bind_eq_some,
          Option.some.injEq, Prod.mk.injEq] at h
        obtain ⟨⟨dir, r2⟩, _h2, ⟨rate, r3⟩, _h3, hgrp, _hr⟩ := h
        rw [← hgrp] at ht
        simp_all
      · split at h
        · -- map type 6: contradicts slice_group_map_type = 2
          simp only [Option.pure_def, Option.bind_eq_bind, Option.bind_eq_some,
            Option.some.injEq, Prod.mk.injEq] at h
          obtain ⟨⟨psz, r2⟩, _h2, ⟨ids, r3⟩, _h3, hgrp, _hr⟩ := h
          rw [← hgrp] at ht
          simp_all
        · -- other map types: slice_group_map_type = mt with mt not 2
          simp only [Option.some.injEq, Prod.mk.injEq] at h
          obtain ⟨hgrp, _hr⟩ := h
          rw [← hgrp] at ht
          simp_all

theorem parsePPSGroup_type2_lengths {nsgm1 : Nat} {r : BitReader}
    {grp : PPSGroupFields} {r' : BitReader}
    (h : parsePPSGroup nsgm1 r = some (grp, r'))
    (hn : nsgm1 > 0) (ht : grp.slice_group_map_type = 2) :
    grp.top_left.length = nsgm1 ∧ grp.bottom_right.length = nsgm1 := by
  unfold parsePPSGroup at h
  rw [if_pos hn] at h
  exact parsePPSGroupBranch_type2_lengths h ht

/-- C2, amended: when the PPS decoder reads `num_slice_groups_minus1 > 0`
and `slice_group_map_type == 2`, it reads exactly `num_slice_groups_minus1`
`(top_left, bottom_right)` pairs - one fewer than the
`num_slice_groups_minus1 + 1` run-lengths of the type-0 branch - matching
the H.264 standard's `for (iGroup = 0; iGroup < num_slice_groups_minus1)`
loop. -/
theorem c2_type2_reads_nsgm1_pairs (r0 : BitReader) (rec : PPSRec)
    (h : PPS.parse r0 = some rec)
    (hn : rec.num_slice_groups_minus1 > 0)
    (ht : rec.slice_group_map_type = 2) :
    rec.top_left.length = rec.num_slice_groups_minus1 ∧
    rec.bottom_right.length = rec.num_slice_groups_minus1 := by
  unfold PPS.parse at h
  simp only [Option.pure_def, Option.bind_eq_bind, Option.bind_eq_some,
    Option.some.injEq] at h
  obtain ⟨⟨ppsId, r1⟩, _h1, ⟨seqId, r2⟩, _h2, ⟨entropy, r3⟩, _h3,
    ⟨order, r4⟩, _h4, ⟨nsgm1, r5⟩, _h5, ⟨grp, r6⟩, h6, ⟨mid, r7⟩, _h7,
    ⟨ext, r8⟩, _h8, hrec⟩ := h
  have hfields : rec.num_slice_groups_minus1 = nsgm1 ∧
      rec.slice_group_map_type = grp.slice_group_map_type ∧
      rec.top_left = grp.top_left ∧ rec.bottom_right = grp.bottom_right := by
    rw [← hrec]
    exact ⟨rfl, rfl, rfl, rfl⟩
  obtain ⟨hf1, hf2, hf3, hf4⟩ := hfields
  rw [hf1] at hn ⊢
  rw [hf2] at ht
  rw [hf3, hf4]
  exact parsePPSGroup_type2_lengths h6 hn ht

/-- C2, counterexample: a PPS payload with `num_slice_groups_minus1 = 1`
and `slice_group_map_type = 2` from which the decoder reads exactly one
`(top_left, bottom_right)` pair, not the `num_slice_groups_minus1 + 1 = 2`
pairs the claim states. -/
theorem c2_counterexample :
    (PPS.parse ⟨bytesToBits [0xC4, 0xFC, 0x70], 0⟩).map
        (fun p => (p.num_slice_groups_minus1, p.slice_group_map_type,
          p.top_left.length, p.bottom_right.length)) = some (1, 2, 1, 1) ∧
    ¬ (PPS.parse ⟨bytesToBits [0xC4, 0xFC, 0x70], 0⟩).map
        (fun p => p.top_left.length) = some 2 := by
  exact ⟨rfl, by decide⟩

/-- The concrete PPS of the C2 counterexample, used by the C2 witness. -/
def demoPPS2 : PPSRec :=
  (PPS.parse ⟨bytesToBits [0xC4, 0xFC, 0x70], 0⟩).get (by rfl)

/-- C2, witness: the amended theorem applied to the concrete type-2 PPS. -/
theorem c2_witness :
    demoPPS2.top_left.length = demoPPS2.num_slice_groups_minus1 ∧
    demoPPS2.bottom_right.length = demoPPS2.num_slice_groups_minus1 :=
  c2_type2_reads_nsgm1_pairs ⟨bytesToBits [0xC4, 0xFC, 0x70], 0⟩ demoPPS2
    (Option.some_get (by rfl)).symm (by decide) (by decide)

/-- C7, amended: for every successfully decoded slice header, the recorded
`_slice_header_size_bits` equals the end cursor minus the start cursor, the
header byte size rounds the bit count UP to whole bytes (it is the least
byte count covering the header bits), but the payload byte size rounds
DOWN (Python floor division), not up as the claim states: it is the
greatest byte count fitting inside the remaining bits. -/
theorem c7_size_accounting (r0 : BitReader) (spsCtx : Option SPSRec)
    (ppsCtx : Option PPSRec) (nal : Nat) (cs : CodedSliceRec)
    (h : CodedSlice.parse r0 spsCtx ppsCtx nal = some cs) :
    cs.slice_header_size_bits = cs.s.pos - r0.pos ∧
    cs.slice_header_size_bits ≤ 8 * get_slice_header_size cs ∧
    8 * get_slice_header_size cs < cs.slice_header_size_bits + 8 ∧
    8 * get_slice_payload_size cs ≤
      cs.s.bits.length - cs.slice_header_size_bits ∧
    cs.s.bits.length - cs.slice_header_size_bits <
      8 * get_slice_payload_size cs + 8 := by
  unfold CodedSlice.parse at h
  simp only [Option.pure_def, Option.bind_eq_bind, Option.bind_eq_some,
    Option.some.injEq] at h
  obtain ⟨sps, _hs, pps, _hp, ⟨head, r1⟩, _h1, ⟨poc, r2⟩, _h2, ⟨ref, r3⟩,
    _h3, ⟨mods, r4⟩, _h4, r5, _h5, ⟨mark, r6⟩, _h6, ⟨qp, r7⟩, _h7,
    ⟨deblock, r8⟩, _h8, ⟨sgcc, r9⟩, _h9, hcs⟩ := h
  subst hcs
  refine ⟨rfl, ?_, ?_, ?_, ?_⟩ <;>
    · simp only [get_slice_header_size, get_slice_payload_size,
        CodedSlice.assemble]
      omega

/-- C7, counterexample: the concrete decoded slice `demoSlice` has a 19-bit
header in a 24-bit payload; `get_slice_payload_size` returns
`(24 - 19) // 8 = 0`, not the claimed `ceil((24 - 19) / 8) = 1`. -/
theorem c7_counterexample :
    get_slice_payload_size demoSlice = 0 ∧
    (demoSlice.s.bits.length - demoSlice.slice_header_size_bits + 7) / 8 = 1 ∧
    get_slice_payload_size demoSlice ≠
      (demoSlice.s.bits.length - demoSlice.slice_header_size_bits + 7) / 8 := by
  decide

/-- C7, witness: the amended theorem applied to the concrete slice. -/
theorem c7_witness :
    demoSlice.slice_header_size_bits =
      demoSlice.s.pos - (⟨bytesToBits [0x9A, 0x24, 0x20], 0⟩ : BitReader).pos ∧
    demoSlice.slice_header_size_bits ≤ 8 * get_slice_header_size demoSlice ∧
    8 * get_slice_header_size demoSlice <
      demoSlice.slice_header_size_bits + 8 ∧
    8 * get_slice_payload_size demoSlice ≤
      demoSlice.s.bits.length - demoSlice.slice_header_size_bits ∧
    demoSlice.s.bits.length - demoSlice.slice_header_size_bits <
      8 * get_slice_payload_size demoSlice + 8 :=
  c7_size_accounting ⟨bytesToBits [0x9A, 0x24, 0x20], 0⟩ (some demoSPS)
    (some demoPPS) 1 demoSlice (Option.some_get (by rfl)).symm

/-- C8: for every non-IDR slice NALU (`nal_unit_type = 1`) whose
`slice_type` decodes to 5, the decoder produces `slice_type_str = "P"` (via
`slice_type mod 5 = 0`), `is_idr = false`, and records no `idr_pic_id`. -/
theorem c8_non_idr_type5_is_p_slice (r0 : BitReader) (spsCtx : Option SPSRec)
    (ppsCtx : Option PPSRec) (cs : CodedSliceRec)
    (h : CodedSlice.parse r0 spsCtx ppsCtx 1 = some cs)
    (ht : cs.slice_type = 5) :
    cs.slice_type_str = "P" ∧ cs.slice_type % 5 = 0 ∧
    cs.is_idr = false ∧ cs.idr_pic_id = none := by
  unfold CodedSlice.parse at h
  simp only [Option.pure_def, Option.bind_eq_bind, Option.bind_eq_some,
    Option.some.injEq] at h
  obtain ⟨sps, _hs, pps, _hp, ⟨head, r1⟩, h1, ⟨poc, r2⟩, _h2, ⟨ref, r3⟩,
    _h3, ⟨mods, r4⟩, _h4, r5, _h5, ⟨mark, r6⟩, _h6, ⟨qp, r7⟩, _h7,
    ⟨deblock, r8⟩, _h8, ⟨sgcc, r9⟩, _h9, hcs⟩ := h
  obtain ⟨hidr, hstr, hnone⟩ := parseSliceHead_fields h1
  subst hcs
  simp only [CodedSlice.assemble] at ht ⊢
  have hst : head.slice_type = 5 := ht
  refine ⟨?_, ?_, ?_, ?_⟩
  · rw [hstr, hst]
    rfl
  · rw [hst]
  · rw [hidr]
    rfl
  · exact hnone (by decide)

/-- C8, witness: the theorem applied to the concrete non-IDR slice with
`slice_type = 5`. -/
theorem c8_witness :
    demoSlice.slice_type_str = "P" ∧ demoSlice.slice_type % 5 = 0 ∧
    demoSlice.is_idr = false ∧ demoSlice.idr_pic_id = none :=
  c8_non_idr_type5_is_p_slice ⟨bytesToBits [0x9A, 0x24, 0x20], 0⟩
    (some demoSPS) (some demoPPS) demoSlice
    (Option.some_get (by rfl)).symm (by decide)

/-- C1, counterexample: the de-emulator is not idempotent. On the payload
`00 00 03 03` one pass yields `00 00 03` - an output that still contains a
`00 00 03` triplet - and a second pass rewrites it to `00 00`. -/
theorem c1_counterexample :
    hasEmuTriplet (deEmulate [0, 0, 3, 3]) = true ∧
    deEmulate (deEmulate [0, 0, 3, 3]) ≠ deEmulate [0, 0, 3, 3] := by
  decide

/-- C1, amended: one de-emulation pass maps every triplet-free byte sequence
to itself, so a second pass is a no-op exactly on those inputs whose
first-pass output contains no `00 00 03` triplet; in general (for example
input `00 00 03 03`) the output of one pass can still contain `00 00 03`
and a second pass changes it. -/
theorem c1_second_pass_noop_iff_output_clean (l : List Nat)
    (h : hasEmuTriplet (deEmulate l) = false) :
    deEmulate (deEmulate l) = deEmulate l :=
  deEmulate_of_hasEmuTriplet_eq_false (deEmulate l) h

/-- C1, witness: a concrete payload whose de-emulated output is clean, on
which the second pass is a no-op. -/
theorem c1_witness :
    hasEmuTriplet (deEmulate [0, 0, 3, 0, 7]) = false ∧
    deEmulate (deEmulate [0, 0, 3, 0, 7]) = deEmulate [0, 0, 3, 0, 7] :=
  ⟨by decide, c1_second_pass_noop_iff_output_clean [0, 0, 3, 0, 7] (by decide)⟩

/-- C3, counterexample: by the definition of `read_ue` (count `k` leading
zero bits, read `k` suffix bits, return `2 ^ k - 1 + suffix`), the bit
pattern `00100` decodes to `2 ^ 2 - 1 + 0 = 3`, not to 4 as the claim
states (4 is encoded `00101`). -/
theorem c3_counterexample :
    (read_ue ⟨[false, false, true, false, false], 0⟩).map Prod.fst = some 3 ∧
    (read_ue ⟨[false, false, true, false, false], 0⟩).map Prod.fst ≠ some 4 := by
  decide

/-- C3, amended: `read_ue` maps the canonical patterns `1`, `010`, `011` to
0, 1, 2 as claimed, but `00100` decodes to 3; the pattern for 4 is `00101`. -/
theorem c3_read_ue_canonical_patterns :
    (read_ue ⟨[true], 0⟩).map Prod.fst = some 0 ∧
    (read_ue ⟨[false, true, false], 0⟩).map Prod.fst = some 1 ∧
    (read_ue ⟨[false, true, true], 0⟩).map Prod.fst = some 2 ∧
    (read_ue ⟨[false, false, true, false, false], 0⟩).map Prod.fst = some 3 ∧
    (read_ue ⟨[false, false, true, false, true], 0⟩).map Prod.fst = some 4 := by
  decide

/-- C9: evaluation of the locator at a buffer with a 3-byte start code at
offset 0 and a 4-byte start code later. The short start code at bit 0 is
clamped by `max(s - 8, 0)` to 0 and then re-added as `0 + 8`, so the first
NALU is recorded at bit position 8 (byte 1), not at offset 0, and the
record list is `[8, 40]` plus the end-of-stream marker 88. -/
theorem c9_offset_zero_start_code_mislocated :
    getNaluPositions [0, 0, 1, 9, 16, 0, 0, 0, 1, 9, 16] =
      .ok [8, 40, 88] := by
  rfl

/-- C6: evaluation of the dispatcher at the failing input. On the stream
`00 00 00 01 09 10` (one AUD NALU), `parse` raises the `TypeError` of
`nalutypes.AUD(rbsp_payload, self.verbose)` before ever invoking the
`"aud"` callback, so no output sink receives a decoded unit, a
`nal_unit_type` or byte offsets - nor even the raw RBSP payload. On a
stream whose NALU type is outside the dispatch chain (here SEI, type 6)
`parse` completes, and the only delivery made is the `"nalu"` callback
with a single positional argument, the raw segment bytes. -/
theorem c6_parse_crashes_before_sink_delivery :
    parse [0, 0, 0, 1, 9, 16] = .error audTypeErrorMsg ∧
    parse [0, 0, 0, 1, 6, 16] =
      .ok ({}, [], [{ name := "nalu", args := [[0, 0, 0, 1, 6, 16]] }]) := by
  constructor <;> rfl

theorem findPattern_eq_nil_iff {pat buf : List Nat} (hp : pat ≠ []) :
    findPattern pat buf = [] ↔ ¬ containsSeq buf pat := by
  unfold findPattern containsSeq
  rw [List.map_eq_nil_iff, List.filter_eq_nil_iff]
  constructor
  · rintro h ⟨i, hi⟩
    have hlen : i < buf.length := by
      by_contra hge
      push_neg at hge
      rw [List.drop_eq_nil_of_le hge] at hi
      simp only [List.take_nil] at hi
      exact hp hi.symm
    exact h i (List.mem_range.mpr hlen) (by simpa [matchesAt] using hi)
  · intro h i _ hq
    exact h ⟨i, by simpa [matchesAt] using hq⟩

theorem dispatchNalu_error_ne {ctx : Ctx} {seg : List Nat} {e : String}
    (h : dispatchNalu ctx seg = .error e) : e ≠ noNaluMsg := by
  unfold dispatchNalu at h
  dsimp only at h
  repeat' split at h
  all_goals cases h
  all_goals decide

theorem processUnits_error_ne {e : String} :
    ∀ (segs : List (List Nat)) (ctx : Ctx),
      processUnits ctx segs = .error e → e ≠ noNaluMsg := by
  intro segs
  induction segs with
  | nil =>
    intro ctx h
    cases h
  | cons seg rest ih =>
    intro ctx h
    unfold processUnits at h
    split at h
    · rename_i e2 hd
      injection h with h1
      subst h1
      exact dispatchNalu_error_ne hd
    · rename_i out hd
      split at h
      · rename_i e2 hrest
        injection h with h1
        subst h1
        exact ih _ hrest
      · cases h

/-- C4: `parse` fails with the "no NALUs found" error exactly on the
buffers that contain no byte-aligned `00 00 01` and no `00 00 00 01` start
code anywhere; the error is returned to the caller of `parse` (the Python
code prints the message and raises `SystemExit`, which propagates), and no
later stage of the pipeline ever swallows it or produces that same error
when at least one start code exists. -/
theorem c4_no_nalu_error_iff_no_start_code (buf : List Nat) :
    parse buf = .error noNaluMsg ↔
      ¬ containsSeq buf [0, 0, 1] ∧ ¬ containsSeq buf [0, 0, 0, 1] := by
  have h3 := @findPattern_eq_nil_iff [0, 0, 1] buf (by simp)
  have h4 := @findPattern_eq_nil_iff [0, 0, 0, 1] buf (by simp)
  by_cases hc : findPattern [0, 0, 0, 1] buf = [] ∧ findPattern [0, 0, 1] buf = []
  · constructor
    · intro _
      exact ⟨h3.mp hc.2, h4.mp hc.1⟩
    · intro _
      unfold parse getNaluPositions
      rw [if_pos hc]
  · have hok : ∃ ps, getNaluPositions buf = .ok ps := by
      unfold getNaluPositions
      rw [if_neg hc]
      split
      · exact ⟨_, rfl⟩
      · exact ⟨_, rfl⟩
    obtain ⟨ps, hps⟩ := hok
    constructor
    · intro her
      unfold parse at her
      rw [hps] at her
      exact absurd rfl (processUnits_error_ne _ _ her)
    · rintro ⟨hc3, hc4⟩
      exact absurd ⟨h4.mpr hc4, h3.mpr hc3⟩ hc

/-- C10: the memory-management-control-operation loop of
`_parse_dec_ref_pic_marking` always terminates on a finite payload.
`mmcoLoop` is a total function (its well-founded recursion is justified by
the strict cursor advance), and this theorem records the loop discipline:
every successful `read_ue` strictly advances the cursor over unchanged
bits, the loop exits immediately when the cursor has reached the end of the
payload (so a payload lacking the 0 terminator still terminates), it exits
on operation code 0, and on any other code it recurses after reading the
operands of that operation. -/
theorem c10_mmco_loop_terminates (r : BitReader) :
    (∀ v r', read_ue r = some (v, r') → r'.bits = r.bits ∧ r.pos < r'.pos) ∧
    (r.bits.length ≤ r.pos → mmcoLoop r = some r) ∧
    (∀ r', r.pos < r.bits.length → read_ue r = some (0, r') →
      mmcoLoop r = some r') ∧
    (∀ op r' r'', r.pos < r.bits.length → read_ue r = some (op, r') →
      op ≠ 0 → mmcoOperands op r' = some r'' → mmcoLoop r = mmcoLoop r'') := by
  refine ⟨fun v r' hu => read_ue_advance hu, ?_, ?_, ?_⟩
  · intro hle
    rw [mmcoLoop]
    rw [dif_neg (by omega)]
  · intro r' hlt hu
    rw [mmcoLoop, dif_pos hlt]
    split
    · rename_i heq
      rw [hu] at heq
      cases heq
    · rename_i op r2 heq
      rw [hu] at heq
      injection heq with heq1
      have h1 : (0 : Nat) = op := congrArg Prod.fst heq1
      have h2 : r' = r2 := congrArg Prod.snd heq1
      subst h1
      subst h2
      rw [if_pos rfl]
  · intro op r' r'' hlt hu hne ho
    conv_lhs => rw [mmcoLoop]
    rw [dif_pos hlt]
    split
    · rename_i heq
      rw [hu] at heq
      cases heq
    · rename_i op2 r2 heq
      rw [hu] at heq
      injection heq with heq1
      have h1 : op = op2 := congrArg Prod.fst heq1
      have h2 : r' = r2 := congrArg Prod.snd heq1
      subst h1
      subst h2
      rw [if_neg hne]
      split
      · rename_i heq2
        rw [ho] at heq2
        cases heq2
      · rename_i r3 heq2
        rw [ho] at heq2
        injection heq2 with heq3
        rw [heq3]

/-- C10, witness: on the one-bit payload `1` the loop reads operation code
0 and stops with the cursor advanced past it. -/
theorem c10_witness : mmcoLoop ⟨[true], 0⟩ = some ⟨[true], 1⟩ :=
  (c10_mmco_loop_terminates ⟨[true], 0⟩).2.2.1 ⟨[true], 1⟩ (by decide)
    (by decide)

/-- The SPS NALU segment (start code, header, payload) of the C5 failing
stream. -/
def demoSpsSeg : List Nat := [0, 0, 0, 1, 0x67, 0x42, 0x00, 0x1E, 0xF4, 0xF0]

/-- The PPS NALU segment of the C5 failing stream. -/
def demoPpsSeg : List Nat := [0, 0, 0, 1, 0x68, 0xCE, 0x38]

/-- The non-IDR slice NALU segment of the C5 failing stream. -/
def demoSliceSeg : List Nat := [0, 0, 0, 1, 0x41, 0x9A, 0x24, 0x20]

/-- C5: evaluation of the dispatcher at a failing input. On an SPS-PPS-
slice stream - the very shape the two-latch design and the repository's
own tests are meant to handle, and one whose SPS, PPS and slice payloads
the decoders of `nalutypes.py` themselves parse successfully (`demoSPS`,
`demoPPS`, `demoSlice`) - `parse` aborts at the first SPS with the
`TypeError` of `nalutypes.SPS(rbsp_payload, self.verbose)`. The
`nalu_sps`/`nalu_pps` latches are never written and the slice-header
decoder is never consulted, so the claimed latch-and-consult behavior
never occurs in the program. -/
theorem c5_parse_aborts_before_latching :
    parse (demoSpsSeg ++ demoPpsSeg ++ demoSliceSeg) =
      .error spsTypeErrorMsg ∧
    CodedSlice.parse ⟨bytesToBits [0x9A, 0x24, 0x20], 0⟩ (some demoSPS)
      (some demoPPS) 1 = some demoSlice := by
  constructor
  · rfl
  · exact (Option.some_get (by rfl)).symm

end H26x
